import Mathlib

/-!
# Verification of the microblog activity-processing engine

Shallow embedding of `src/app/boxes.py` (and the data model of
`src/app/models.py`) of the f0lg/microblog repository, together with proofs
settling the claims about the inbound dispatch pipeline, side-effect
reversion, conversation-root resolution, poll aggregation, outbound Undo
authoring and reply-tree reconstruction.

Conventions of the embedding:
* the database session is a pure `DB` value; SQL `SELECT ... WHERE` queries
  become `List.filter`/`List.find?`, `UPDATE ... WHERE` becomes a `List.map`
  rewriting the matching rows in place;
* network interaction (`ap.fetch`, remote actor dereference, LD-signature
  verification, recipient resolution) is an `Env` of oracle functions;
* Python exceptions are `Except PyError`; an early `return` of a handler is
  an `.ok` result carrying the session state at the point of return;
* timestamps are integers (seconds); `datetime` comparisons become `Int`
  comparisons;
* unbounded recursion (`fetch_conversation_root`, the reply-tree assembly)
  takes a fuel parameter; a result of `none` for every fuel value models
  non-termination of the Python original.
-/

deriving instance DecidableEq for Except

/-- Modelled from the spec: the base URL of the local instance
(`config.BASE_URL`); an AP id is locally rooted iff it starts with it. -/
def BASE_URL : String := "https://myblog.example"

/-- Modelled from the spec: the local actor's AP id (`config.ID`, which
microblog.pub sets to the base URL). -/
def LOCAL_ACTOR_AP_ID : String := BASE_URL

/-- Modelled from the spec: the local actor's profile URL
(`LOCAL_ACTOR.url`), used by the mention check. -/
def LOCAL_ACTOR_URL : String := BASE_URL

/-- Modelled from the spec: the local actor's handle (`LOCAL_ACTOR.handle`),
used by the mention check. -/
def LOCAL_ACTOR_HANDLE : String := "@dev@myblog.example"

/-- Modelled from the spec: `ap.ACTOR_TYPES` from `app/activitypub.py`
(not under `src/`): the AP actor document types. -/
def ACTOR_TYPES : List String :=
  ["Application", "Group", "Organization", "Person", "Service"]

/-- `ap.VisibilityEnum`. -/
inductive Visibility where
  | PUBLIC
  | UNLISTED
  | FOLLOWERS_ONLY
  | DIRECT
deriving DecidableEq, Repr

/-- One entry of the `tag` list of an AP object (only the fields the engine
reads: `name` and `href`). -/
structure ApTag where
  name : Option String
  href : Option String
deriving DecidableEq, Repr

/-- One declared option of a `Question` (`oneOf`/`anyOf` entry): its `name`
and its `replies.totalItems` tally. -/
structure PollItem where
  name : String
  totalItems : Nat
deriving DecidableEq, Repr

/-- An AP/JSON-LD document without a nested `object` field, restricted to the
fields the engine reads.  `actor` stands for `ap.get_actor_id` (the `actor`
or `attributedTo` id), `hasLdSignature` for the presence of an embedded
JSON-LD signature, and for actor documents `handle`, `alsoKnownAs`,
`inboxUrl` and `sharedInboxUrl` carry the actor fields.  `visibility` is the
visibility derived from the addressing fields (Modelled from the spec:
`to=[public]` → PUBLIC, etc.; the raw `to`/`cc` lists are not tracked, the
recipient resolver is an oracle of the environment). -/
structure RawDoc where
  id : Option String
  apType : String
  actor : Option String
  objectRef : Option String
  target : Option String
  inReplyTo : Option String
  context : Option String
  name : Option String
  content : Option String
  published : Option Int
  updated : Option Int
  tags : List ApTag
  hasLdSignature : Bool
  votersCount : Option Nat
  endTime : Option Int
  oneOf : Option (List PollItem)
  anyOf : Option (List PollItem)
  quoteUrl : Option String
  visibility : Visibility
  handle : Option String
  alsoKnownAs : List String
  inboxUrl : Option String
  sharedInboxUrl : Option String
deriving DecidableEq, Repr

/-- An AP document that may additionally embed one `object` sub-document
(`Create`/`Update`/`Announce` envelopes).  `objectRef` of the base holds the
`object` field when it is a plain id string. -/
structure RawObject extends RawDoc where
  object : Option RawDoc
deriving DecidableEq, Repr

/-- `ap.get_object_id(doc["object"])`: the id of the `object` field, whether
it is a plain string or an embedded document (Modelled from the spec: wire
shapes carry `object` as an id or an inlined object). -/
def RawObject.getObjectId (o : RawObject) : Option String :=
  match o.objectRef with
  | some r => some r
  | none => match o.object with
    | some d => d.id
    | none => none

/-- `Object.activity_object_ap_id` (from `app/ap_object.py`, not under
`src/`; Modelled from the spec: "`activity_object_ap_id` (the object an
activity-activity points at)"). -/
def RawObject.activityObjectApId (o : RawObject) : Option String :=
  o.getObjectId

/-- `models.Actor` row. -/
structure Actor where
  id : Nat
  apId : String
  apType : String
  handle : Option String
  server : String
  inboxUrl : String
  sharedInboxUrl : String
  outboxUrl : String
  alsoKnownAs : List String
  isBlocked : Bool
  isDeleted : Bool
deriving DecidableEq, Repr

/-- `actor.ap_actor = updated_actor.ap_actor`: overwriting the stored actor
document replaces its document-derived fields. -/
def Actor.applyActorDoc (a : Actor) (doc : RawDoc) : Actor :=
  { a with
    handle := doc.handle
    alsoKnownAs := doc.alsoKnownAs
    inboxUrl := (doc.inboxUrl.getD a.inboxUrl)
    sharedInboxUrl := (doc.sharedInboxUrl.getD a.sharedInboxUrl) }

/-- `models.InboxObject` row. -/
structure InboxObject where
  id : Nat
  server : String
  actorId : Nat
  apActorId : String
  apType : String
  apId : String
  apContext : Option String
  conversation : Option String
  apPublishedAt : Int
  apObject : RawObject
  activityObjectApId : Option String
  visibility : Visibility
  relatesToInboxObjectId : Option Nat
  relatesToOutboxObjectId : Option Nat
  undoneByInboxObjectId : Option Nat
  likedViaOutboxObjectApId : Option String
  announcedViaOutboxObjectApId : Option String
  isHiddenFromStream : Bool
  repliesCount : Nat
  isDeleted : Bool
  isTransient : Bool
  quotedInboxObjectId : Option Nat
deriving DecidableEq, Repr

/-- `Object.in_reply_to` (from `app/ap_object.py`, not under `src/`;
Modelled from the spec: the wire field `inReplyTo` of the stored document,
matching the `json_extract(ap_object, "$.inReplyTo")` queries). -/
def InboxObject.inReplyTo (o : InboxObject) : Option String :=
  o.apObject.inReplyTo

/-- `Object.has_ld_signature` (Modelled from the spec: `hasSignature`
of the signature contract). -/
def InboxObject.hasLdSignature (o : InboxObject) : Bool :=
  o.apObject.hasLdSignature

/-- `Object.quote_url` (Modelled from the spec: "Quote-linked objects"). -/
def InboxObject.quoteUrl (o : InboxObject) : Option String :=
  o.apObject.quoteUrl

/-- `models.OutboxObject` row. -/
structure OutboxObject where
  id : Nat
  publicId : String
  apType : String
  apId : String
  apContext : Option String
  conversation : Option String
  apPublishedAt : Int
  apObject : RawObject
  activityObjectApId : Option String
  visibility : Visibility
  likesCount : Int
  announcesCount : Int
  repliesCount : Nat
  source : Option String
  isDeleted : Bool
  isHiddenFromHomepage : Bool
  isTransient : Bool
  relatesToInboxObjectId : Option Nat
  relatesToOutboxObjectId : Option Nat
  relatesToActorId : Option Nat
  undoneByOutboxObjectId : Option Nat
deriving DecidableEq, Repr

/-- `Object.in_reply_to` for outbox rows. -/
def OutboxObject.inReplyTo (o : OutboxObject) : Option String :=
  o.apObject.inReplyTo

/-- `Object.is_one_of_poll` (Modelled from the spec: a Question carries a
`oneOf` or an `anyOf` option array). -/
def OutboxObject.isOneOfPoll (o : OutboxObject) : Bool :=
  o.apObject.oneOf.isSome

/-- `Object.poll_items` (Modelled from the spec: the Question's `oneOf`
or `anyOf` option array). -/
def OutboxObject.pollItems (o : OutboxObject) : Option (List PollItem) :=
  match o.apObject.oneOf with
  | some items => some items
  | none => o.apObject.anyOf

/-- `Object.is_poll_ended` (Modelled from the spec: "reject if the
question's end time has passed"). -/
def OutboxObject.isPollEnded (now : Int) (o : OutboxObject) : Bool :=
  match o.apObject.endTime with
  | some t => now > t
  | none => false

/-- `models.Follower` row. -/
structure Follower where
  actorId : Nat
  inboxObjectId : Nat
  apActorId : String
deriving DecidableEq, Repr

/-- `models.Following` row. -/
structure Following where
  actorId : Nat
  outboxObjectId : Nat
  apActorId : String
deriving DecidableEq, Repr

/-- `models.NotificationType`. -/
inductive NotificationType where
  | NEW_FOLLOWER
  | PENDING_INCOMING_FOLLOWER
  | REJECTED_FOLLOWER
  | UNFOLLOW
  | FOLLOW_REQUEST_ACCEPTED
  | FOLLOW_REQUEST_REJECTED
  | LIKE
  | UNDO_LIKE
  | ANNOUNCE
  | UNDO_ANNOUNCE
  | MENTION
  | MOVE
deriving DecidableEq, Repr

/-- `models.Notification` row. -/
structure Notification where
  notificationType : NotificationType
  actorId : Option Nat
  outboxObjectId : Option Nat
  inboxObjectId : Option Nat
deriving DecidableEq, Repr

/-- `models.PollAnswer` row. -/
structure PollAnswer where
  outboxObjectId : Nat
  pollType : String
  inboxObjectId : Nat
  actorId : Nat
  name : String
deriving DecidableEq, Repr

/-- `models.OutgoingActivity` work item (as produced by
`new_outgoing_activity`). -/
structure OutgoingActivity where
  recipient : String
  outboxObjectId : Option Nat
  inboxObjectId : Option Nat
deriving DecidableEq, Repr

/-- The database session state: the tables of `models.py` touched by the
engine, plus a fresh-id counter standing for the autoincrement primary key
and the uuid allocator. -/
structure DB where
  actors : List Actor
  inbox : List InboxObject
  outbox : List OutboxObject
  followers : List Follower
  following : List Following
  notifications : List Notification
  pollAnswers : List PollAnswer
  outgoingActivities : List OutgoingActivity
  nextId : Nat
deriving DecidableEq, Repr

/-- Python exceptions surfaced by the engine. -/
inductive PyError where
  | valueError (msg : String)
  | keyError
  | httpUnauthorized
  | httpClientError
  | httpServerError
  | objectNotFound
  | objectGone
  | notAnObject
  | objectUnavailable
deriving DecidableEq, Repr

/-- Outcome of a remote `ap.fetch`: a document, one of the four classified
dereference failures, or a raw 4xx/5xx transport error. -/
inductive FetchResult where
  | ok (doc : RawObject)
  | notFound
  | gone
  | notAnObject
  | unavailable
  | clientError
  | serverError
deriving DecidableEq, Repr

/-- The environment: per-deployment configuration and the network oracles
(actor directory misses the cache, object fetches, LD-signature
verification, recipient resolution, collection parsing). -/
structure Env where
  now : Int
  blockedServers : List String
  manuallyApprovesFollowers : Bool
  remoteActors : String → Option Actor
  fetchObject : String → FetchResult
  verifyLdSig : RawObject → Bool
  computeRecipients : DB → RawObject → List String
  parseCollection : String → List RawObject

/-- `str.startswith(prefix)` on the character lists (reducible stand-in for
`String.startsWith`, whose byte-level primitives do not evaluate in the
kernel). -/
def strStartsWith (s pre : String) : Bool :=
  pre.data.isPrefixOf s.data

/-- `get_inbox_object_by_ap_id`. -/
def get_inbox_object_by_ap_id (db : DB) (apId : String) : Option InboxObject :=
  db.inbox.find? (fun o => o.apId == apId)

/-- `get_outbox_object_by_ap_id`. -/
def get_outbox_object_by_ap_id (db : DB) (apId : String) : Option OutboxObject :=
  db.outbox.find? (fun o => o.apId == apId)

/-- `AnyboxObject = models.InboxObject | models.OutboxObject`. -/
abbrev AnyboxObject := Sum InboxObject OutboxObject

/-- `get_anybox_object_by_ap_id`. -/
def get_anybox_object_by_ap_id (db : DB) (apId : String) : Option AnyboxObject :=
  if strStartsWith apId BASE_URL then
    (get_outbox_object_by_ap_id db apId).map Sum.inr
  else
    (get_inbox_object_by_ap_id db apId).map Sum.inl

/-- `get_inbox_delete_for_activity_object_ap_id`. -/
def get_inbox_delete_for_activity_object_ap_id (db : DB)
    (activityObjectApId : String) : Option InboxObject :=
  db.inbox.find? (fun o =>
    o.apType == "Delete" && o.activityObjectApId == some activityObjectApId)

/-- `_get_replies_count`: live (non-deleted) objects of either store whose
`inReplyTo` is the given id. -/
def _get_replies_count (db : DB) (repliedObjectApId : String) : Nat :=
  (db.inbox.filter (fun o =>
    o.apObject.inReplyTo == some repliedObjectApId && !o.isDeleted)).length
  + (db.outbox.filter (fun o =>
    o.apObject.inReplyTo == some repliedObjectApId && !o.isDeleted)).length

/-- An `UPDATE inbox SET ... WHERE id = rowId` statement. -/
def DB.updateInboxRow (db : DB) (rowId : Nat) (f : InboxObject → InboxObject) : DB :=
  { db with inbox := db.inbox.map (fun o => if o.id = rowId then f o else o) }

/-- An `UPDATE outbox SET ... WHERE id = rowId` statement. -/
def DB.updateOutboxRow (db : DB) (rowId : Nat) (f : OutboxObject → OutboxObject) : DB :=
  { db with outbox := db.outbox.map (fun o => if o.id = rowId then f o else o) }

/-- An `UPDATE outbox SET ... WHERE p` statement over all matching rows. -/
def DB.updateOutboxWhere (db : DB) (p : OutboxObject → Bool)
    (f : OutboxObject → OutboxObject) : DB :=
  { db with outbox := db.outbox.map (fun o => if p o then f o else o) }

/-- `new_outgoing_activity` (from `app/outgoing_activities.py`, not under
`src/`; Modelled from the spec: `enqueue(recipientEndpoint,
{outboxObjectId | inboxObjectId}) -> workItemId` appends one delivery work
item). -/
def new_outgoing_activity (db : DB) (recipient : String)
    (outboxObjectId : Option Nat) (inboxObjectId : Option Nat) : DB :=
  { db with outgoingActivities := db.outgoingActivities ++
      [{ recipient := recipient, outboxObjectId := outboxObjectId,
         inboxObjectId := inboxObjectId }] }

/-- `fetch_actor` (from `app/actor.py`, not under `src/`; Modelled from the
spec: returns a cached Actor by `ap_id`; if absent, dereferences the
identifier and persists it; `none` is the `ObjectNotFoundError` case). -/
def fetch_actor (env : Env) (db : DB) (apId : String) : Option (Actor × DB) :=
  match db.actors.find? (fun a => a.apId == apId) with
  | some a => some (a, db)
  | none =>
    match env.remoteActors apId with
    | some a =>
      let a' := { a with id := db.nextId }
      some (a', { db with actors := db.actors ++ [a'], nextId := db.nextId + 1 })
    | none => none

/-- `allocate_outbox_id` (deterministic stand-in for the uuid allocator,
unique thanks to the fresh-id counter). -/
def allocate_outbox_id (db : DB) : String := Nat.repr db.nextId

/-- `outbox_object_id`. -/
def outbox_object_id (outboxId : String) : String := BASE_URL ++ "/o/" ++ outboxId

/-- `save_outbox_object`. -/
def save_outbox_object (env : Env) (db : DB) (publicId : String)
    (rawObject : RawObject) (relatesToInboxObjectId : Option Nat)
    (relatesToOutboxObjectId : Option Nat) (relatesToActorId : Option Nat)
    (source : Option String) (isTransient : Bool) (conversation : Option String) :
    Except PyError (OutboxObject × DB) :=
  match rawObject.id with
  | none => .error .keyError
  | some apId =>
    let o : OutboxObject := {
      id := db.nextId
      publicId := publicId
      apType := rawObject.apType
      apId := apId
      apContext := rawObject.context
      conversation := conversation
      apPublishedAt := rawObject.published.getD env.now
      apObject := rawObject
      activityObjectApId := rawObject.activityObjectApId
      visibility := rawObject.visibility
      likesCount := 0
      announcesCount := 0
      repliesCount := 0
      source := source
      isDeleted := false
      isHiddenFromHomepage := rawObject.inReplyTo.isSome
      isTransient := isTransient
      relatesToInboxObjectId := relatesToInboxObjectId
      relatesToOutboxObjectId := relatesToOutboxObjectId
      relatesToActorId := relatesToActorId
      undoneByOutboxObjectId := none }
    .ok (o, { db with outbox := db.outbox ++ [o], nextId := db.nextId + 1 })

/-- `_get_followers_recipients`: shared inboxes of all followers, skipping
the given actor ap ids (the skip list is passed by ap id, which is all the
Python actor values are used for). -/
def _get_followers_recipients (db : DB) (skipActorApIds : List String) : List String :=
  (((db.followers.filterMap (fun f =>
      db.actors.find? (fun a => a.id == f.actorId))).filter
    (fun a => !(skipActorApIds.contains a.apId))).map
      (fun a => a.sharedInboxUrl)).dedup

example : _get_replies_count
    { actors := [], inbox := [], outbox := [], followers := [], following := [],
      notifications := [], pollAnswers := [], outgoingActivities := [], nextId := 0 }
    "x" = 0 := by decide

/-- A document with every optional field absent, the base for the activity
documents the authoring functions build. -/
def emptyRawDoc : RawDoc :=
  { id := none, apType := "", actor := none, objectRef := none, target := none,
    inReplyTo := none, context := none, name := none, content := none,
    published := none, updated := none, tags := [], hasLdSignature := false,
    votersCount := none, endTime := none, oneOf := none, anyOf := none,
    quoteUrl := none, visibility := .DIRECT, handle := none, alsoKnownAs := [],
    inboxUrl := none, sharedInboxUrl := none }

/-- The view of an object that `fetch_conversation_root` reads: its id, its
`context` field and its `inReplyTo` field (an `AnyboxObject | RemoteObject`). -/
structure ConvObject where
  apId : String
  apContext : Option String
  inReplyTo : Option String
deriving DecidableEq, Repr

/-- Conversation-resolution view of an inbox row. -/
def InboxObject.toConvObject (o : InboxObject) : ConvObject :=
  { apId := o.apId, apContext := o.apContext, inReplyTo := o.inReplyTo }

/-- Conversation-resolution view of an outbox row. -/
def OutboxObject.toConvObject (o : OutboxObject) : ConvObject :=
  { apId := o.apId, apContext := o.apContext, inReplyTo := o.inReplyTo }

/-- Conversation-resolution view of either store's row. -/
def AnyboxObject.toConvObject : AnyboxObject → ConvObject
  | .inl o => o.toConvObject
  | .inr o => o.toConvObject

/-- `app.ap_object.RemoteObject` (not under `src/`): a fetched raw document
paired with its resolved actor. -/
structure RemoteObject where
  apId : String
  actorApId : String
  actorId : Nat
  apObject : RawObject
deriving DecidableEq, Repr

/-- `RemoteObject(raw_object, actor=...)`; `none` when the document carries
no id (in which case the Python object's `ap_id` access raises). -/
def RemoteObject.fromRawObject? (raw : RawObject) (actor : Actor) :
    Option RemoteObject :=
  raw.id.map (fun i =>
    { apId := i, actorApId := actor.apId, actorId := actor.id, apObject := raw })

/-- Conversation-resolution view of a remote object. -/
def RemoteObject.toConvObject (ro : RemoteObject) : ConvObject :=
  { apId := ro.apId, apContext := ro.apObject.context,
    inReplyTo := ro.apObject.inReplyTo }

/-- `fetch_conversation_root`, with a fuel parameter for its unbounded
recursion: `none` for every fuel value models non-termination.  A returned
pair is the conversation id together with the session state (remote parent
resolution can persist newly fetched actors). -/
def fetch_conversation_root (env : Env) :
    Nat → DB → ConvObject → Bool → Option (Except PyError (String × DB))
  | 0, _, _, _ => none
  | Nat.succ fuel, db, obj, isRoot =>
    if obj.inReplyTo.isNone || isRoot then
      some (.ok (match obj.apContext with
        | some c => c
        | none => "microblogpub:root:" ++ obj.apId, db))
    else
      match obj.inReplyTo with
      | none => some (.ok ("microblogpub:root:" ++ obj.apId, db))
      | some irt =>
        match get_anybox_object_by_ap_id db irt with
        | some inReplyToObject =>
          fetch_conversation_root env fuel db inReplyToObject.toConvObject false
        | none =>
          match env.fetchObject irt with
          | .ok rawReply =>
            match rawReply.actor with
            | none => some (.error .keyError)
            | some replyActorId =>
              match fetch_actor env db replyActorId with
              | none =>
                -- fetch_actor raises ObjectNotFoundError, which the
                -- surrounding try treats as "consider it the root"
                fetch_conversation_root env fuel db obj true
              | some (replyActor, db1) =>
                match RemoteObject.fromRawObject? rawReply replyActor with
                | none => some (.error .keyError)
                | some ro =>
                  fetch_conversation_root env fuel db1 ro.toConvObject false
          | .notFound | .gone | .notAnObject | .unavailable =>
            fetch_conversation_root env fuel db obj true
          | .clientError =>
            -- 4xx: we may not have access, consider it the root
            fetch_conversation_root env fuel db obj true
          | .serverError => some (.error .httpServerError)

/-- `_send_follow`. -/
def _send_follow (env : Env) (db : DB) (apActorId : String) :
    Except PyError DB :=
  match fetch_actor env db apActorId with
  | none => .error .objectNotFound
  | some (actor, db1) =>
    let followId := allocate_outbox_id db1
    let follow : RawObject :=
      { toRawDoc := { emptyRawDoc with
          id := some (outbox_object_id followId)
          apType := "Follow"
          actor := some LOCAL_ACTOR_AP_ID
          objectRef := some apActorId }
        object := none }
    match save_outbox_object env db1 followId follow none none (some actor.id)
        none false none with
    | .error e => .error e
    | .ok (outboxObject, db2) =>
      .ok (new_outgoing_activity db2 actor.inboxUrl (some outboxObject.id) none)

/-- `_send_undo`. -/
def _send_undo (env : Env) (db : DB) (apObjectId : String) :
    Except PyError DB :=
  match get_outbox_object_by_ap_id db apObjectId with
  | none => .error (.valueError (apObjectId ++ " not found in the outbox"))
  | some outboxObjectToUndo =>
    if !(["Follow", "Like", "Announce"].contains outboxObjectToUndo.apType) then
      .error (.valueError
        ("Cannot build Undo for " ++ outboxObjectToUndo.apType ++ " activity"))
    else
      let undoId := allocate_outbox_id db
      let undo : RawObject :=
        { toRawDoc := { emptyRawDoc with
            id := some (outbox_object_id undoId)
            apType := "Undo"
            actor := some LOCAL_ACTOR_AP_ID }
          -- ap.remove_context(outbox_object_to_undo.ap_object)
          object := some outboxObjectToUndo.apObject.toRawDoc }
      match save_outbox_object env db undoId undo none
          (some outboxObjectToUndo.id) none none false none with
      | .error e => .error e
      | .ok (outboxObject, db1) =>
        let db2 := db1.updateOutboxRow outboxObjectToUndo.id
          (fun o => { o with undoneByOutboxObjectId := some outboxObject.id })
        if outboxObjectToUndo.apType = "Follow" then
          match outboxObjectToUndo.activityObjectApId with
          | none => .error (.valueError "Should never happen")
          | some followedActorApId =>
            match fetch_actor env db2 followedActorApId with
            | none => .error .objectNotFound
            | some (followedActor, db3) =>
              let db4 := new_outgoing_activity db3 followedActor.inboxUrl
                (some outboxObject.id) none
              -- Also remove the follow from the following collection
              let remaining := db4.following.filter
                (fun f => !(f.apActorId == followedActor.apId))
              .ok { db4 with following := remaining }
        else if outboxObjectToUndo.apType = "Like" then
          match outboxObjectToUndo.activityObjectApId with
          | none => .error (.valueError "Should never happen")
          | some likedObjectApId =>
            match get_inbox_object_by_ap_id db2 likedObjectApId with
            | none => .error (.valueError
                ("Cannot find liked object " ++ likedObjectApId))
            | some likedObject =>
              let db3 := db2.updateInboxRow likedObject.id
                (fun o => { o with likedViaOutboxObjectApId := none })
              match db3.actors.find? (fun a => a.id == likedObject.actorId) with
              | none => .error .keyError
              | some likedActor =>
                .ok (new_outgoing_activity db3 likedActor.inboxUrl
                  (some outboxObject.id) none)
        else if outboxObjectToUndo.apType = "Announce" then
          match outboxObjectToUndo.activityObjectApId with
          | none => .error (.valueError "Should never happen")
          | some announcedObjectApId =>
            match get_inbox_object_by_ap_id db2 announcedObjectApId with
            | none => .error (.valueError
                ("Cannot find announced object " ++ announcedObjectApId))
            | some announcedObject =>
              let db3 := db2.updateInboxRow announcedObject.id
                (fun o => { o with announcedViaOutboxObjectApId := none })
              let recipients := env.computeRecipients db3 outboxObject.apObject
              .ok (recipients.foldl (fun acc rcp =>
                new_outgoing_activity acc rcp (some outboxObject.id) none) db3)
        else .error (.valueError "Should never happen")

/-- `send_undo` (commits what `_send_undo` did). -/
def send_undo (env : Env) (db : DB) (apObjectId : String) :
    Except PyError DB :=
  _send_undo env db apObjectId

/-- `_revert_side_effect_for_deleted_object`. -/
def _revert_side_effect_for_deleted_object (db : DB)
    (delete_activity : InboxObject) (deleted_ap_object : InboxObject)
    (forwarded_by_actor : Option Actor) : DB :=
  -- Decrement the replies counter if needed
  let step1 : DB × Bool :=
    match deleted_ap_object.inReplyTo with
    | none => (db, false)
    | some irt =>
      match get_anybox_object_by_ap_id db irt with
      | none => (db, false)
      | some (.inr repliedObject) =>
        -- a local reply that was likely forwarded: the Delete also needs
        -- to be forwarded
        let newRepliesCount := _get_replies_count db repliedObject.apId
        (db.updateOutboxRow repliedObject.id
          (fun o => { o with repliesCount := newRepliesCount }), true)
      | some (.inl repliedObject) =>
        let newRepliesCount := _get_replies_count db repliedObject.apId
        (db.updateInboxRow repliedObject.id
          (fun o => { o with repliesCount := newRepliesCount }), false)
  let db1 := step1.1
  let isDeleteNeedsToBeForwarded := step1.2
  let db2 :=
    if deleted_ap_object.apType = "Like" then
      match deleted_ap_object.activityObjectApId with
      | some targetApId =>
        match get_outbox_object_by_ap_id db1 targetApId with
        | some relatedObject =>
          -- related_object.is_from_outbox always holds for an outbox row
          db1.updateOutboxRow relatedObject.id
            (fun o => { o with likesCount := o.likesCount - 1 })
        | none => db1
      | none => db1
    else if deleted_ap_object.apType = "Annouce" then
      -- sic: the source compares ap_type against the misspelled "Annouce"
      match deleted_ap_object.activityObjectApId with
      | some targetApId =>
        match get_outbox_object_by_ap_id db1 targetApId with
        | some relatedObject =>
          db1.updateOutboxRow relatedObject.id
            (fun o => { o with announcesCount := o.announcesCount - 1 })
        | none => db1
      | none => db1
    else db1
  -- Delete any Like/Announce
  let db3 := db2.updateOutboxWhere
    (fun o => o.activityObjectApId == some deleted_ap_object.apId)
    (fun o => { o with isDeleted := true })
  -- If it is a local reply, it was forwarded, so also forward the Delete
  if delete_activity.activityObjectApId == some deleted_ap_object.apId
      && delete_activity.hasLdSignature && isDeleteNeedsToBeForwarded then
    let skipActors := [delete_activity.apActorId] ++
      (match forwarded_by_actor with | some a => [a.apId] | none => [])
    let recipients := _get_followers_recipients db3 skipActors
    recipients.foldl (fun acc rcp =>
      new_outgoing_activity acc rcp none (some delete_activity.id)) db3
  else db3

/-- `_handle_delete_activity`. -/
def _handle_delete_activity (db : DB) (from_actor : Actor)
    (delete_activity : InboxObject)
    (relates_to_inbox_object : Option InboxObject)
    (forwarded_by_actor : Option Actor) : DB :=
  match relates_to_inbox_object with
  | some apObjectToDelete =>
    if from_actor.apId ≠ apObjectToDelete.apActorId then
      -- actor mismatch between the activity and the object
      db
    else
      let db1 := _revert_side_effect_for_deleted_object db delete_activity
        apObjectToDelete forwarded_by_actor
      db1.updateInboxRow apObjectToDelete.id
        (fun o => { o with isDeleted := true })
  | none =>
    match delete_activity.activityObjectApId with
    | none => db
    | some targetApId =>
      -- fetch_actor(..., save_if_not_found=False) followed by the
      -- is_from_db check: only an actor already cached in the database
      -- proceeds; an unknown object is logged and dropped
      match db.actors.find? (fun a => a.apId == targetApId) with
      | none => db
      | some actorToDelete =>
        if from_actor.apId ≠ actorToDelete.apId then
          -- actor mismatch between the activity and the object
          db
        else
          let remainingFollowers := db.followers.filter
            (fun f => !(f.apActorId == actorToDelete.apId))
          let remainingFollowing := db.following.filter
            (fun f => !(f.apActorId == actorToDelete.apId))
          let db1 := { db with followers := remainingFollowers,
                               following := remainingFollowing }
          let markedActors := db1.actors.map (fun a =>
            if a.id = actorToDelete.id then { a with isDeleted := true } else a)
          let db2 := { db1 with actors := markedActors }
          let ownedIds := (db2.inbox.filter (fun o =>
            o.actorId == actorToDelete.id && !o.isDeleted)).map (fun o => o.id)
          ownedIds.foldl (fun acc oid =>
            match acc.inbox.find? (fun o => o.id == oid) with
            | none => acc
            | some obj =>
              let acc1 := _revert_side_effect_for_deleted_object acc
                delete_activity obj none
              acc1.updateInboxRow oid (fun o => { o with isDeleted := true })) db2

/-- The exception a failed `ap.fetch` raises. -/
def FetchResult.toError : FetchResult → PyError
  | .ok _ => .keyError
  | .notFound => .objectNotFound
  | .gone => .objectGone
  | .notAnObject => .notAnObject
  | .unavailable => .objectUnavailable
  | .clientError => .httpClientError
  | .serverError => .httpServerError

/-- `urlparse(...).hostname` (character-list implementation so that it
evaluates in the kernel). -/
def urlHostname (url : String) : String :=
  let rest :=
    if strStartsWith url "https://" then String.mk (url.data.drop 8)
    else if strStartsWith url "http://" then String.mk (url.data.drop 7)
    else url
  String.mk (rest.data.takeWhile (fun c => !(c == '/')))

/-- `_handle_vote_answer`. -/
def _handle_vote_answer (env : Env) (db : DB) (answer : InboxObject)
    (question : OutboxObject) : Except PyError DB :=
  if OutboxObject.isPollEnded env.now question then
    -- poll is ended, discarding answer
    .ok db
  else
    match question.pollItems with
    | none => .error (.valueError "Should never happen")
    | some pollItems =>
      if pollItems.isEmpty then .error (.valueError "Should never happen")
      else
        match answer.apObject.name with
        | none => .error .keyError
        | some answerName =>
          if !((pollItems.map (fun pi => pi.name)).contains answerName) then
            -- invalid answer
            .ok db
          else
            let db1 := db.updateInboxRow answer.id
              (fun o => { o with isTransient := true })
            let pollAnswer : PollAnswer := {
              outboxObjectId := question.id
              pollType := if question.isOneOfPoll then "oneOf" else "anyOf"
              inboxObjectId := answer.id
              actorId := answer.actorId
              name := answerName }
            let db2 := { db1 with pollAnswers := db1.pollAnswers ++ [pollAnswer] }
            let votersCount := (((db2.pollAnswers.filter
              (fun pa => pa.outboxObjectId == question.id)).map
                (fun pa => pa.actorId)).dedup).length
            let allAnswersCount := fun (nm : String) =>
              (db2.pollAnswers.filter (fun pa =>
                pa.outboxObjectId == question.id && pa.name == nm)).length
            let newItems := pollItems.map (fun item =>
              { name := item.name, totalItems := allAnswersCount item.name : PollItem })
            let qdoc := question.apObject
            let qdoc1 :=
              if question.isOneOfPoll then
                { qdoc with votersCount := some votersCount,
                            oneOf := some newItems, updated := some env.now }
              else
                { qdoc with votersCount := some votersCount,
                            anyOf := some newItems, updated := some env.now }
            let db3 := db2.updateOutboxRow question.id
              (fun o => { o with apObject := qdoc1 })
            -- Finally send an update
            let recipients := env.computeRecipients db3 qdoc1
            .ok (recipients.foldl (fun acc rcp =>
              new_outgoing_activity acc rcp (some question.id) none) db3)

/-- The `is_hidden_from_stream` value `_process_note_object` computes from
its local flags `is_reply`, `is_from_following`, `is_mention` and
`is_local_reply` (all derived from the session state before the
conversation-root fetch). -/
def noteIsHidden (db : DB) (ro : RemoteObject) : Bool :=
  !((!ro.apObject.inReplyTo.isSome
      && (db.following.map (fun f => f.apActorId)).contains ro.actorApId)
    || ro.apObject.tags.any (fun tag =>
        tag.name == some LOCAL_ACTOR_HANDLE || tag.href == some LOCAL_ACTOR_URL)
    || ((match ro.apObject.inReplyTo with
         | some irt => strStartsWith irt BASE_URL
         | none => false)
        && (match ro.apObject.content with
            | some c => !(c == "")
            | none => false)))

/-- The `InboxObject(...)` row `_process_note_object` inserts (`db` is the
session state the hidden-stream flags were computed from, `db1` the state
after the conversation-root fetch). -/
def noteRow (env : Env) (db db1 : DB) (conversation : String)
    (parentActivityId : Nat) (from_actor : Actor) (ro : RemoteObject) :
    InboxObject := {
  id := db1.nextId
  server := urlHostname ro.apId
  actorId := from_actor.id
  apActorId := from_actor.apId
  apType := ro.apObject.apType
  apId := ro.apId
  apContext := ro.apObject.context
  conversation := some conversation
  apPublishedAt := ro.apObject.published.getD env.now
  apObject := ro.apObject
  activityObjectApId := ro.apObject.activityObjectApId
  visibility := ro.apObject.visibility
  relatesToInboxObjectId := some parentActivityId
  relatesToOutboxObjectId := none
  undoneByInboxObjectId := none
  likedViaOutboxObjectApId := none
  announcedViaOutboxObjectApId := none
  -- hide replies from the stream
  isHiddenFromStream := noteIsHidden db ro
  -- we may already have some replies in DB
  repliesCount := _get_replies_count db1 ro.apId
  isDeleted := false
  isTransient := false
  quotedInboxObjectId := none }

/-- The replied-object update of `_process_note_object`: poll-answer
handling when the replied object is a local `Question` and the note
carries a name, otherwise a replies-count refresh on the replied
object. -/
def noteAfterCount (env : Env) (db3 : DB) (inboxObject : InboxObject)
    (repliedObject : Option (Sum InboxObject OutboxObject)) :
    Except PyError DB :=
  match repliedObject with
  | none => .ok db3
  | some (.inr replied) =>
    if replied.apType = "Question"
        && (match inboxObject.apObject.name with
            | some nm => !(nm == "")
            | none => false) then
      _handle_vote_answer env db3 inboxObject replied
    else
      let newRepliesCount := _get_replies_count db3 replied.apId
      .ok (db3.updateOutboxRow replied.id
        (fun o => { o with repliesCount := newRepliesCount }))
  | some (.inl replied) =>
    let newRepliesCount := _get_replies_count db3 replied.apId
    .ok (db3.updateInboxRow replied.id
      (fun o => { o with repliesCount := newRepliesCount }))

-- this object is a reply of a local object: we may need to
-- forward it to our followers
/-- The follower-forwarding step of `_process_note_object`. -/
def noteForward (db4 : DB) (parentActivity : InboxObject)
    (repliedObject : Option (Sum InboxObject OutboxObject))
    (forwarded_by_actor : Option Actor) (parentActivityId : Nat) : DB :=
  if parentActivity.apType = "Create"
      && (match repliedObject with
          | some (.inr r) => !(r.apType == "Question")
          | _ => false)
      && parentActivity.hasLdSignature then
    (_get_followers_recipients db4
        ([parentActivity.apActorId] ++
          (match forwarded_by_actor with
           | some a => [a.apId] | none => []))).foldl
      (fun acc rcp =>
        new_outgoing_activity acc rcp none (some parentActivityId)) db4
  else db4

/-- The replied-object block of `_process_note_object`. -/
def noteStep (env : Env) (db3 : DB) (parentActivity inboxObject : InboxObject)
    (forwarded_by_actor : Option Actor) (parentActivityId : Nat) :
    Except PyError DB :=
  match inboxObject.inReplyTo with
  | none => .ok db3
  | some irt =>
    match noteAfterCount env db3 inboxObject
        (get_anybox_object_by_ap_id db3 irt) with
    | .error e => .error e
    | .ok db4 =>
      .ok (noteForward db4 parentActivity
        (get_anybox_object_by_ap_id db3 irt) forwarded_by_actor
        parentActivityId)

/-- The mention-notification step of `_process_note_object`. -/
def noteMentionStep (db5 : DB) (isMention : Bool) (from_actor : Actor)
    (inboxObjectId : Nat) : DB :=
  if isMention then
    { db5 with notifications := db5.notifications ++
        [{ notificationType := .MENTION, actorId := some from_actor.id,
           outboxObjectId := none, inboxObjectId := some inboxObjectId }] }
  else db5

/-- The quoted-object block of `_process_note_object`; `recur` is the
recursive call at the remaining fuel. -/
def noteQuoteStep (env : Env)
    (recur : DB → Nat → Actor → RemoteObject → Option Actor → Bool →
      Option (Except PyError (DB × InboxObject)))
    (db6 : DB) (inboxObject : InboxObject) (ro : RemoteObject)
    (processQuotedUrl : Bool) : Option DB :=
  match ro.apObject.quoteUrl, processQuotedUrl with
  | some quoteUrl, true =>
    match env.fetchObject quoteUrl with
    | .ok quotedRawObject =>
      match quotedRawObject.actor with
      | none => some db6
      | some quotedActorId =>
        match fetch_actor env db6 quotedActorId with
        | none => some db6
        | some (quotedObjectActor, db6a) =>
          match RemoteObject.fromRawObject? quotedRawObject quotedObjectActor with
          | none => some db6a
          | some quotedRo =>
            match recur db6a inboxObject.id quotedObjectActor quotedRo
                none false with
            | none => none
            | some (.error _) => some db6a
            | some (.ok (db7, quotedInboxObject)) =>
              some (db7.updateInboxRow inboxObject.id (fun o =>
                { o with quotedInboxObjectId := some quotedInboxObject.id }))
    | _ => some db6
  | _, _ => some db6

/-- `_process_note_object` (the fuel bounds both the conversation-root
recursion and the quote recursion, which consumes one unit; quote
processing recurses with the flag off, which the guard of the recursive
call rejects, so the quoted object is never linked and only its actor
resolution survives — the surrounding `try` swallows the error without
rolling the session back). -/
def _process_note_object (env : Env) :
    Nat → DB → Nat → Actor → RemoteObject → Option Actor → Bool →
    Option (Except PyError (DB × InboxObject))
  | 0, _, _, _, _, _, _ => none
  | Nat.succ fuel, db, parentActivityId, from_actor, ro, forwarded_by_actor,
      processQuotedUrl =>
  match db.inbox.find? (fun o => o.id == parentActivityId) with
  | none => some (.error .keyError)
  | some parentActivity =>
    if !(processQuotedUrl && (parentActivity.quoteUrl == some ro.apId))
        && !(["Create", "Read"].contains parentActivity.apType) then
      some (.error (.valueError ("Unexpected parent activity " ++ parentActivity.apId)))
    else
      let isMention := ro.apObject.tags.any (fun tag =>
        tag.name == some LOCAL_ACTOR_HANDLE || tag.href == some LOCAL_ACTOR_URL)
      match fetch_conversation_root env (Nat.succ fuel) db ro.toConvObject false with
      | none => none
      | some (.error e) => some (.error e)
      | some (.ok (conversation, db1)) =>
        let inboxObject :=
          noteRow env db db1 conversation parentActivityId from_actor ro
        let db2 := { db1 with inbox := db1.inbox ++ [inboxObject],
                              nextId := db1.nextId + 1 }
        let db3 := db2.updateInboxRow parentActivityId
          (fun o => { o with relatesToInboxObjectId := some inboxObject.id })
        match noteStep env db3 parentActivity inboxObject forwarded_by_actor
            parentActivityId with
        | .error e => some (.error e)
        | .ok db5 =>
          let db6 := noteMentionStep db5 isMention from_actor inboxObject.id
          match noteQuoteStep env (_process_note_object env fuel) db6
              inboxObject ro processQuotedUrl with
          | none => none
          | some dbFinal =>
            match dbFinal.inbox.find? (fun o => o.id == inboxObject.id) with
            | none => some (.error .keyError)
            | some finalObject => some (.ok (dbFinal, finalObject))

/-- `_handle_create_activity`. -/
def _handle_create_activity (env : Env) (fuel : Nat) (db : DB)
    (from_actor : Actor) (create_activity : InboxObject)
    (forwarded_by_actor : Option Actor) : Option (Except PyError DB) :=
  -- wrapped_object = ap.unwrap_activity(create_activity.ap_object)
  match create_activity.apObject.object with
  | none => some (.error .keyError)
  | some wrappedDoc =>
    match wrappedDoc.actor with
    | none => some (.error .keyError)
    | some wrappedActorId =>
      if create_activity.apActorId ≠ wrappedActorId then
        some (.error (.valueError "Object actor does not match activity"))
      else
        let wrapped : RawObject := { toRawDoc := wrappedDoc, object := none }
        match RemoteObject.fromRawObject? wrapped from_actor with
        | none => some (.error .keyError)
        | some ro =>
          -- check if we already received a delete for this object
          match get_inbox_delete_for_activity_object_ap_id db ro.apId with
          | some deleteObject =>
            if deleteObject.apActorId ≠ from_actor.apId then
              some (.ok db)
            else
              -- already received a Delete for this object: delete the activity
              some (.ok (db.updateInboxRow create_activity.id
                (fun o => { o with isDeleted := true })))
          | none =>
            match _process_note_object env fuel db create_activity.id from_actor
                ro forwarded_by_actor true with
            | none => none
            | some (.error e) => some (.error e)
            | some (.ok (db1, _)) => some (.ok db1)

/-- `_handle_read_activity`. -/
def _handle_read_activity (env : Env) (fuel : Nat) (db : DB)
    (_from_actor : Actor) (read_activity : InboxObject) :
    Option (Except PyError DB) :=
  -- Honk uses Read to propagate replies: fetch the read object remotely
  match read_activity.apObject.getObjectId with
  | none => some (.error .keyError)
  | some readObjectId =>
    match env.fetchObject readObjectId with
    | .ok wrappedObject =>
      match wrappedObject.actor with
      | none => some (.error .keyError)
      | some wrappedActorId =>
        match fetch_actor env db wrappedActorId with
        | none => some (.error .objectNotFound)
        | some (wrappedObjectActor, db1) =>
          if wrappedObjectActor.isBlocked then some (.ok db1)
          else
            match RemoteObject.fromRawObject? wrappedObject wrappedObjectActor with
            | none => some (.error .keyError)
            | some ro =>
              -- process it like it is coming from a forwarded activity
              match _process_note_object env fuel db1 read_activity.id
                  wrappedObjectActor ro none true with
              | none => none
              | some (.error e) => some (.error e)
              | some (.ok (db2, _)) => some (.ok db2)
    | fr => some (.error fr.toError)

/-- `ap.get_object` (from `app/activitypub.py`, not under `src/`; Modelled
from the spec: the `object` field of an activity, inlined or dereferenced
over the network). -/
def ap_get_object (env : Env) (o : RawObject) : Except PyError RawDoc :=
  match o.object with
  | some d => .ok d
  | none =>
    match o.objectRef with
    | some r =>
      match env.fetchObject r with
      | .ok raw => .ok raw.toRawDoc
      | fr => .error fr.toError
    | none => .error .keyError

/-- `_handle_update_activity`. -/
def _handle_update_activity (env : Env) (db : DB) (from_actor : Actor)
    (update_activity : InboxObject) : Except PyError DB :=
  match ap_get_object env update_activity.apObject with
  | .error e => .error e
  | .ok wrapped =>
    if ACTOR_TYPES.contains wrapped.apType then
      -- updating the actor
      let invalid :=
        !(wrapped.id == some from_actor.apId)
        || !(ACTOR_TYPES.contains from_actor.apType)
        || !(ACTOR_TYPES.contains wrapped.apType)
        || !(from_actor.handle == wrapped.handle)
      if invalid then
        .error (.valueError "Invalid Update activity")
      else
        let updatedActors := db.actors.map (fun a =>
          if a.id = from_actor.id then a.applyActorDoc wrapped else a)
        .ok { db with actors := updatedActors }
    else if ["Question", "Note", "Article", "Page", "Video"].contains
        wrapped.apType then
      match wrapped.id with
      | none => .error .keyError
      | some wrappedId =>
        match get_inbox_object_by_ap_id db wrappedId with
        | none => .ok db -- not found in the inbox
        | some existingObject =>
          if existingObject.apActorId ≠ from_actor.apId then
            -- Update actor does not match the object actor
            .ok db
          else
            -- everything looks correct, update the object in the inbox
            .ok (db.updateInboxRow existingObject.id (fun o =>
              { o with apObject := { toRawDoc := wrapped, object := none } }))
    else .ok db -- cannot update this type

/-- `_handle_move_activity`. -/
def _handle_move_activity (env : Env) (db : DB) (from_actor : Actor)
    (move_activity : InboxObject) : Except PyError DB :=
  -- ensure the object matches the actor
  match move_activity.apObject.getObjectId with
  | none => .error .keyError
  | some oldActorId =>
    if oldActorId ≠ from_actor.apId then .ok db
    else
      -- fetch the target account
      match move_activity.apObject.target with
      | none => .ok db -- missing target
      | some newActorId =>
        match fetch_actor env db newActorId with
        | none => .error .objectNotFound
        | some (newActor, db1) =>
          -- ensure the target account references the old account
          if !(newActor.alsoKnownAs.contains oldActorId) then .ok db1
          else
            -- unfollow the old account
            match db1.following.find? (fun f => f.apActorId == oldActorId) with
            | none => .ok db1 -- not following the Move actor
            | some following =>
              match db1.outbox.find? (fun o => o.id == following.outboxObjectId) with
              | none => .error .keyError
              | some followingOutboxObject =>
                match _send_undo env db1 followingOutboxObject.apId with
                | .error e => .error e
                | .ok db2 =>
                  -- follow the new one (skip if already following)
                  let db3r : Except PyError DB :=
                    if (db2.following.find?
                        (fun f => f.apActorId == newActorId)).isNone then
                      _send_follow env db2 newActorId
                    else .ok db2
                  match db3r with
                  | .error e => .error e
                  | .ok db3 =>
                    .ok { db3 with notifications := db3.notifications ++
                      [{ notificationType := .MOVE,
                         actorId := some newActor.id,
                         outboxObjectId := none,
                         inboxObjectId := some move_activity.id }] }

/-- `_send_accept` (the duplicate-Follower `IntegrityError` is swallowed,
modelled as a conditional insert). -/
def _send_accept (env : Env) (db : DB) (from_actor : Actor)
    (inbox_object : InboxObject) : Except PyError DB :=
  let db1 :=
    if (db.followers.find? (fun f => f.apActorId == from_actor.apId)).isSome then db
    else { db with followers := db.followers ++
      [{ actorId := from_actor.id, inboxObjectId := inbox_object.id,
         apActorId := from_actor.apId }] }
  -- reply with an Accept
  let replyId := allocate_outbox_id db1
  let reply : RawObject :=
    { toRawDoc := { emptyRawDoc with
        id := some (outbox_object_id replyId)
        apType := "Accept"
        actor := some LOCAL_ACTOR_AP_ID
        objectRef := some inbox_object.apId }
      object := none }
  match save_outbox_object env db1 replyId reply (some inbox_object.id) none
      none none false none with
  | .error e => .error e
  | .ok (outboxActivity, db2) =>
    let db3 := new_outgoing_activity db2 from_actor.inboxUrl
      (some outboxActivity.id) none
    .ok { db3 with notifications := db3.notifications ++
      [{ notificationType := .NEW_FOLLOWER, actorId := some from_actor.id,
         outboxObjectId := none, inboxObjectId := none }] }

/-- `_handle_follow_follow_activity`. -/
def _handle_follow_follow_activity (env : Env) (db : DB) (from_actor : Actor)
    (follow_activity : InboxObject) : Except PyError DB :=
  if follow_activity.activityObjectApId ≠ some LOCAL_ACTOR_AP_ID then
    -- dropping Follow activity for another actor
    .ok { db with inbox := db.inbox.filter (fun o => !(o.id == follow_activity.id)) }
  else if env.manuallyApprovesFollowers then
    .ok { db with notifications := db.notifications ++
      [{ notificationType := .PENDING_INCOMING_FOLLOWER,
         actorId := some from_actor.id, outboxObjectId := none,
         inboxObjectId := some follow_activity.id }] }
  else
    _send_accept env db from_actor follow_activity

/-- `_handle_undo_activity`. -/
def _handle_undo_activity (db : DB) (from_actor : Actor)
    (undo_activity : InboxObject) (ap_activity_to_undo : InboxObject) :
    Except PyError DB :=
  if from_actor.apId ≠ ap_activity_to_undo.apActorId then
    -- actor mismatch between the activity and the object
    .ok db
  else
    let db1 := db.updateInboxRow ap_activity_to_undo.id (fun o =>
      { o with undoneByInboxObjectId := some undo_activity.id, isDeleted := true })
    if ap_activity_to_undo.apType = "Follow" then
      let remainingFollowers := db1.followers.filter
        (fun f => !(f.inboxObjectId == ap_activity_to_undo.id))
      let db2 := { db1 with followers := remainingFollowers }
      .ok { db2 with notifications := db2.notifications ++
        [{ notificationType := .UNFOLLOW, actorId := some from_actor.id,
           outboxObjectId := none, inboxObjectId := none }] }
    else if ap_activity_to_undo.apType = "Like" then
      match ap_activity_to_undo.activityObjectApId with
      | none => .error (.valueError "Like without object")
      | some likedApId =>
        match get_outbox_object_by_ap_id db1 likedApId with
        | none => .ok db1 -- cannot find the liked object
        | some likedObj =>
          let db2 := db1.updateOutboxRow likedObj.id (fun o =>
            { o with likesCount := o.likesCount - 1 })
          .ok { db2 with notifications := db2.notifications ++
            [{ notificationType := .UNDO_LIKE, actorId := some from_actor.id,
               outboxObjectId := some likedObj.id,
               inboxObjectId := some ap_activity_to_undo.id }] }
    else if ap_activity_to_undo.apType = "Announce" then
      match ap_activity_to_undo.activityObjectApId with
      | none => .error (.valueError "Announce witout object")
      | some announcedApId =>
        if strStartsWith announcedApId BASE_URL then
          match get_outbox_object_by_ap_id db1 announcedApId with
          | none => .ok db1
          | some announcedObj =>
            let db2 := db1.updateOutboxRow announcedObj.id (fun o =>
              { o with announcesCount := o.announcesCount - 1 })
            .ok { db2 with notifications := db2.notifications ++
              [{ notificationType := .UNDO_ANNOUNCE,
                 actorId := some from_actor.id,
                 outboxObjectId := some announcedObj.id,
                 inboxObjectId := some ap_activity_to_undo.id }] }
        else .ok db1
    else .ok db1 -- do not know how to undo this activity

/-- `_handle_like_activity`. -/
def _handle_like_activity (db : DB) (actor : Actor)
    (like_activity : InboxObject)
    (relates_to_outbox_object : Option OutboxObject)
    (_relates_to_inbox_object : Option InboxObject) : DB :=
  match relates_to_outbox_object with
  | none =>
    -- like for an unknown activity: delete the just-persisted activity
    { db with inbox := db.inbox.filter (fun o => !(o.id == like_activity.id)) }
  | some related =>
    let db1 := db.updateOutboxRow related.id (fun o =>
      { o with likesCount := o.likesCount + 1 })
    { db1 with notifications := db1.notifications ++
      [{ notificationType := .LIKE, actorId := some actor.id,
         outboxObjectId := some related.id,
         inboxObjectId := some like_activity.id }] }

/-- `_handle_announce_activity`. -/
def _handle_announce_activity (env : Env) (db : DB) (actor : Actor)
    (announce_activity : InboxObject)
    (relates_to_outbox_object : Option OutboxObject)
    (relates_to_inbox_object : Option InboxObject) : Except PyError DB :=
  match relates_to_outbox_object with
  | some related =>
    -- announce for a local object
    let db1 := db.updateOutboxRow related.id (fun o =>
      { o with announcesCount := o.announcesCount + 1 })
    .ok { db1 with notifications := db1.notifications ++
      [{ notificationType := .ANNOUNCE, actorId := some actor.id,
         outboxObjectId := some related.id,
         inboxObjectId := some announce_activity.id }] }
  | none =>
    -- only show the announce in the stream if it comes from a followed actor
    let followings := db.following
    let isFromFollowing :=
      (followings.map (fun f => f.apActorId)).contains announce_activity.apActorId
    match relates_to_inbox_object with
    | some related =>
      -- dedup re-announces of a recently seen object
      let skipDelta : Int := 3600
      let deltaFromOriginal := env.now - related.apPublishedAt
      let dupCount := (db.inbox.filter (fun o =>
        o.apType == "Announce"
        && decide (o.apPublishedAt > env.now - skipDelta)
        && o.relatesToInboxObjectId == some related.id
        && !o.isHiddenFromStream)).length
      if (!related.isHiddenFromStream && decide (deltaFromOriginal < skipDelta))
          || 0 < dupCount then
        .ok (db.updateInboxRow announce_activity.id (fun o =>
          { o with isHiddenFromStream := true }))
      else
        .ok (db.updateInboxRow announce_activity.id (fun o =>
          { o with isHiddenFromStream := !isFromFollowing }))
    | none =>
      -- announce for an unknown object: fetch and save it
      match announce_activity.activityObjectApId with
      | none => .error (.valueError "Should never happen")
      | some targetApId =>
        match env.fetchObject targetApId with
        | .ok announcedRaw0 =>
          -- some software returns objects wrapped in a Create activity
          let unwrapped : Except PyError RawObject :=
            if announcedRaw0.apType == "Create" then
              match ap_get_object env announcedRaw0 with
              | .ok d => .ok { toRawDoc := d, object := none }
              | .error e => .error e
            else .ok announcedRaw0
          match unwrapped with
          | .error e => .error e
          | .ok announcedRaw =>
            match announcedRaw.actor with
            | none => .error .keyError
            | some announcedActorApId =>
              match fetch_actor env db announcedActorApId with
              | none => .error .objectNotFound
              | some (announcedActor, db1) =>
                if announcedActor.isBlocked then .ok db1
                else
                  match announcedRaw.id with
                  | none => .error .keyError
                  | some announcedApId =>
                    let announcedInboxObject : InboxObject := {
                      id := db1.nextId
                      server := urlHostname announcedApId
                      actorId := announcedActor.id
                      apActorId := announcedActor.apId
                      apType := announcedRaw.apType
                      apId := announcedApId
                      apContext := announcedRaw.context
                      conversation := none
                      apPublishedAt := announcedRaw.published.getD env.now
                      apObject := announcedRaw
                      activityObjectApId := announcedRaw.activityObjectApId
                      visibility := announcedRaw.visibility
                      relatesToInboxObjectId := none
                      relatesToOutboxObjectId := none
                      undoneByInboxObjectId := none
                      likedViaOutboxObjectApId := none
                      announcedViaOutboxObjectApId := none
                      isHiddenFromStream := true
                      repliesCount := 0
                      isDeleted := false
                      isTransient := false
                      quotedInboxObjectId := none }
                    let db2 := { db1 with
                      inbox := db1.inbox ++ [announcedInboxObject],
                      nextId := db1.nextId + 1 }
                    .ok (db2.updateInboxRow announce_activity.id (fun o =>
                      { o with
                        relatesToInboxObjectId := some announcedInboxObject.id,
                        isHiddenFromStream := !isFromFollowing }))
        | fr => .error fr.toError

/-- `save_object_to_inbox`. -/
def save_object_to_inbox (env : Env) (fuel : Nat) (db : DB)
    (raw_object : RawObject) : Option (Except PyError (DB × InboxObject)) :=
  match raw_object.actor with
  | none => some (.error .keyError)
  | some objActorApId =>
    match fetch_actor env db objActorApId with
    | none => some (.error .objectNotFound)
    | some (objActor, db1) =>
      match RemoteObject.fromRawObject? raw_object objActor with
      | none => some (.error .keyError)
      | some ro =>
        let apPublishedAt := ro.apObject.published.getD env.now
        match fetch_conversation_root env fuel db1 ro.toConvObject false with
        | none => none
        | some (.error e) => some (.error e)
        | some (.ok (conversation, db2)) =>
          let inboxObject : InboxObject := {
            id := db2.nextId
            server := urlHostname ro.apId
            actorId := objActor.id
            apActorId := objActor.apId
            apType := ro.apObject.apType
            apId := ro.apId
            apContext := ro.apObject.context
            conversation := some conversation
            apPublishedAt := apPublishedAt
            apObject := ro.apObject
            activityObjectApId := ro.apObject.activityObjectApId
            visibility := ro.apObject.visibility
            relatesToInboxObjectId := none
            relatesToOutboxObjectId := none
            undoneByInboxObjectId := none
            likedViaOutboxObjectApId := none
            announcedViaOutboxObjectApId := none
            isHiddenFromStream := true
            repliesCount := 0
            isDeleted := false
            isTransient := false
            quotedInboxObjectId := none }
          some (.ok ({ db2 with inbox := db2.inbox ++ [inboxObject],
                                nextId := db2.nextId + 1 }, inboxObject))

/-- The loop of `_prefetch_actor_outbox`; an exception mid-loop keeps the
session mutations already made (its caller catches and ignores it). -/
def _prefetch_loop (env : Env) (fuel : Nat) :
    List RawObject → Nat → DB → Option DB
  | [], _, db => some db
  | activity :: rest, saved, db =>
    match activity.id with
    | none => some db -- ap.get_id raises; caught by the caller
    | some activityId =>
      match env.fetchObject activityId with
      | .ok rawActivity =>
        if rawActivity.apType == "Create" then
          match ap_get_object env rawActivity with
          | .error _ => some db
          | .ok objDoc =>
            match objDoc.id with
            | none => some db
            | some objId =>
              let afterSave : Option (DB × InboxObject) :=
                match get_inbox_object_by_ap_id db objId with
                | some savedInboxObject => some (db, savedInboxObject)
                | none =>
                  match save_object_to_inbox env fuel db
                      { toRawDoc := objDoc, object := none } with
                  | none => none
                  | some (.error _) => none -- absorbed below
                  | some (.ok r) => some r
              match afterSave with
              | none =>
                match save_object_to_inbox env fuel db
                    { toRawDoc := objDoc, object := none } with
                | none => none -- fuel exhaustion is real divergence
                | _ => some db -- the exception is caught by the caller
              | some (dbS, savedInboxObject) =>
                let dbS1 :=
                  if savedInboxObject.inReplyTo.isNone then
                    dbS.updateInboxRow savedInboxObject.id (fun o =>
                      { o with isHiddenFromStream := false })
                  else dbS
                if 5 ≤ saved + 1 then some dbS1
                else _prefetch_loop env fuel rest (saved + 1) dbS1
        else
          if 5 ≤ saved then some db
          else _prefetch_loop env fuel rest saved db
      | _ => some db -- fetch failure; caught by the caller

/-- `_prefetch_actor_outbox` (called inside `try`/`except` from the Accept
branch: failures keep the partial session mutations). -/
def _prefetch_actor_outbox (env : Env) (fuel : Nat) (db : DB) (actor : Actor) :
    Option DB :=
  let outbox := (env.parseCollection actor.outboxUrl).take 20
  _prefetch_loop env fuel outbox 0 db

/-- `save_to_inbox`: the inbound ingestion entry point.  `fuel` bounds the
conversation-root recursion of the note-processing path; a `none` result for
every fuel models non-termination.  An `.ok` result is the committed session,
an `.error` result aborts the whole ingestion (nothing commits). -/
def save_to_inbox (env : Env) (fuel : Nat) (db : DB) (raw_object : RawObject)
    (sent_by_ap_actor_id : String) : Option (Except PyError DB) :=
  -- special case for a server sending the actor as a payload
  if ACTOR_TYPES.contains raw_object.apType then
    if raw_object.id == some sent_by_ap_actor_id then
      match fetch_actor env db sent_by_ap_actor_id with
      | none => some (.ok db) -- actor not found
      | some (actor, db1) =>
        -- update the actor
        let updatedActors := db1.actors.map (fun a =>
          if a.id = actor.id then a.applyActorDoc raw_object.toRawDoc else a)
        some (.ok { db1 with actors := updatedActors })
    else some (.ok db) -- received an actor payload from someone else
  else
    match raw_object.actor with
    | none => some (.error .keyError)
    | some actorApId =>
      match fetch_actor env db actorApId with
      | none => some (.ok db) -- actor not found
      | some (actor, db1) =>
        if env.blockedServers.contains actor.server then
          some (.ok db1) -- the actor's server is blocked
        else
          match raw_object.id with
          | none =>
            -- transient object: `_process_transient_object` only logs and
            -- never persists an InboxObject
            some (.ok db1)
          | some rawObjectId =>
            if actor.isBlocked then some (.ok db1)
            else
              -- ensure forwarded activities have a valid LD sig
              let fwdStep : Except PyError (Sum DB (Option Actor × RawObject × DB)) :=
                if sent_by_ap_actor_id ≠ actor.apId then
                  match fetch_actor env db1 sent_by_ap_actor_id with
                  | none => .error .objectNotFound
                  | some (forwardedByActor, db2) =>
                    if env.verifyLdSig raw_object then
                      .ok (.inr (some forwardedByActor, raw_object, db2))
                    else
                      -- failed to verify the LD sig: fetch the remote object
                      match env.fetchObject rawObjectId with
                      | .ok fetched =>
                        if fetched.id ≠ some rawObjectId then
                          -- unable to fetch the activity: abandon
                          .ok (.inl db2)
                        else .ok (.inr (some forwardedByActor, fetched, db2))
                      | _ => .error .httpUnauthorized -- 401 invalid LD sig
                else .ok (.inr (none, raw_object, db1))
              match fwdStep with
              | .error e => some (.error e)
              | .ok (.inl dbDrop) => some (.ok dbDrop)
              | .ok (.inr (forwarded_by_actor, rawObj, dbc)) =>
                -- deduplication on ap_id
                if 0 < (dbc.inbox.filter (fun o => o.apId == rawObjectId)).length then
                  some (.ok dbc) -- received duplicate activity
                else
                  let apPublishedAt := rawObj.published.getD env.now
                  let activityRo : RemoteObject :=
                    { apId := rawObjectId, actorApId := actor.apId,
                      actorId := actor.id, apObject := rawObj }
                  -- cross-reference resolution
                  let targetApId := activityRo.apObject.activityObjectApId
                  let relatesToOutboxObject : Option OutboxObject :=
                    match targetApId with
                    | some t =>
                      if strStartsWith t BASE_URL then
                        get_outbox_object_by_ap_id dbc t
                      else none
                    | none => none
                  let relatesToInboxObject : Option InboxObject :=
                    match targetApId with
                    | some t =>
                      if strStartsWith t BASE_URL then none
                      else get_inbox_object_by_ap_id dbc t
                    | none => none
                  let inboxObject : InboxObject := {
                    id := dbc.nextId
                    server := urlHostname rawObjectId
                    actorId := actor.id
                    apActorId := actor.apId
                    apType := rawObj.apType
                    apId := rawObjectId
                    apContext := rawObj.context
                    conversation := none
                    apPublishedAt := apPublishedAt
                    apObject := rawObj
                    activityObjectApId := targetApId
                    visibility := rawObj.visibility
                    relatesToInboxObjectId := relatesToInboxObject.map (fun o => o.id)
                    relatesToOutboxObjectId := relatesToOutboxObject.map (fun o => o.id)
                    undoneByInboxObjectId := none
                    likedViaOutboxObjectApId := none
                    announcedViaOutboxObjectApId := none
                    isHiddenFromStream := true
                    repliesCount := 0
                    isDeleted := false
                    isTransient := false
                    quotedInboxObjectId := none }
                  let dbI := { dbc with inbox := dbc.inbox ++ [inboxObject],
                                        nextId := dbc.nextId + 1 }
                  -- dispatch by ap_type
                  if rawObj.apType = "Create" then
                    _handle_create_activity env fuel dbI actor inboxObject
                      forwarded_by_actor
                  else if rawObj.apType = "Read" then
                    _handle_read_activity env fuel dbI actor inboxObject
                  else if rawObj.apType = "Update" then
                    some (_handle_update_activity env dbI actor inboxObject)
                  else if rawObj.apType = "Move" then
                    some (_handle_move_activity env dbI actor inboxObject)
                  else if rawObj.apType = "Delete" then
                    some (.ok (_handle_delete_activity dbI actor inboxObject
                      relatesToInboxObject forwarded_by_actor))
                  else if rawObj.apType = "Follow" then
                    some (_handle_follow_follow_activity env dbI actor inboxObject)
                  else if rawObj.apType = "Undo" then
                    match relatesToInboxObject with
                    | some relatedInbox =>
                      some (_handle_undo_activity dbI actor inboxObject relatedInbox)
                    | none => some (.ok dbI) -- Undo for an unknown activity
                  else if ["Accept", "Reject"].contains rawObj.apType then
                    match relatesToOutboxObject with
                    | none => some (.ok dbI) -- unknown activity
                    | some relatedOutbox =>
                      if relatedOutbox.apType = "Follow" then
                        let notifType :=
                          if rawObj.apType = "Accept" then
                            NotificationType.FOLLOW_REQUEST_ACCEPTED
                          else NotificationType.FOLLOW_REQUEST_REJECTED
                        let notif : Notification :=
                          { notificationType := notifType,
                            actorId := some actor.id, outboxObjectId := none,
                            inboxObjectId := some inboxObject.id }
                        let dbN := { dbI with
                          notifications := dbI.notifications ++ [notif] }
                        if rawObj.apType = "Accept" then
                          let followingRow : Following :=
                            { actorId := actor.id,
                              outboxObjectId := relatedOutbox.id,
                              apActorId := actor.apId }
                          let dbF := { dbN with
                            following := dbN.following ++ [followingRow] }
                          -- pre-fetch the latest activities (failures ignored)
                          match _prefetch_actor_outbox env fuel dbF actor with
                          | none => none
                          | some dbP => some (.ok dbP)
                        else
                          -- Reject: remove the actor from following
                          let remaining := dbN.following.filter
                            (fun f => !(f.apActorId == actor.apId))
                          some (.ok { dbN with following := remaining })
                      else some (.ok dbI) -- Accept for an unsupported activity
                  else if rawObj.apType = "EmojiReact" then
                    match relatesToOutboxObject with
                    | none =>
                      -- reaction for an unknown activity: delete the row
                      let remaining := dbI.inbox.filter
                        (fun o => !(o.id == inboxObject.id))
                      some (.ok { dbI with inbox := remaining })
                    | some _ => some (.ok dbI) -- reactions unsupported
                  else if rawObj.apType = "Like" then
                    some (.ok (_handle_like_activity dbI actor inboxObject
                      relatesToOutboxObject relatesToInboxObject))
                  else if rawObj.apType = "Announce" then
                    some (_handle_announce_activity env dbI actor inboxObject
                      relatesToOutboxObject relatesToInboxObject)
                  else if rawObj.apType = "View" then
                    -- nothing useful to do with a View: delete the row
                    let remaining := dbI.inbox.filter
                      (fun o => !(o.id == inboxObject.id))
                    some (.ok { dbI with inbox := remaining })
                  else some (.ok dbI) -- unknown object type: persisted, inert

/-- `ap_id` of either store's row. -/
def AnyboxObject.apId : AnyboxObject → String
  | .inl o => o.apId
  | .inr o => o.apId

/-- `in_reply_to` of either store's row. -/
def AnyboxObject.inReplyTo : AnyboxObject → Option String
  | .inl o => o.inReplyTo
  | .inr o => o.inReplyTo

/-- `conversation` of either store's row. -/
def AnyboxObject.conversation : AnyboxObject → Option String
  | .inl o => o.conversation
  | .inr o => o.conversation

/-- `ap_published_at` of either store's row. -/
def AnyboxObject.apPublishedAt : AnyboxObject → Int
  | .inl o => o.apPublishedAt
  | .inr o => o.apPublishedAt

/-- `ReplyTreeNode`. -/
inductive ReplyTreeNode where
  | mk (apObject : AnyboxObject) (children : List ReplyTreeNode)
       (isRequested : Bool) (isRoot : Bool)

/-- The `ap_object` of a reply-tree node. -/
def ReplyTreeNode.apObject : ReplyTreeNode → AnyboxObject
  | .mk o _ _ _ => o

/-- The `children` of a reply-tree node. -/
def ReplyTreeNode.children : ReplyTreeNode → List ReplyTreeNode
  | .mk _ c _ _ => c

/-- The `is_requested` flag of a reply-tree node. -/
def ReplyTreeNode.isRequested : ReplyTreeNode → Bool
  | .mk _ _ r _ => r

/-- The `is_root` flag of a reply-tree node. -/
def ReplyTreeNode.isRoot : ReplyTreeNode → Bool
  | .mk _ _ _ r => r

/-- The candidate node set of `get_replies_tree`: the requested object when
it has no conversation, else all live `Note`/`Page`/`Article` rows of both
stores in the same conversation with an allowed visibility. -/
def get_replies_tree_nodes (db : DB) (requested_object : AnyboxObject)
    (is_current_user_admin : Bool) : List AnyboxObject :=
  match AnyboxObject.conversation requested_object with
  | none => [requested_object]
  | some conv =>
    let allowedVisibility : List Visibility :=
      if is_current_user_admin then
        [.PUBLIC, .UNLISTED, .FOLLOWERS_ONLY, .DIRECT]
      else [.PUBLIC, .UNLISTED]
    (db.inbox.filter (fun o =>
       o.conversation == some conv
       && ["Note", "Page", "Article"].contains o.apType
       && !o.isDeleted
       && allowedVisibility.contains o.visibility)).map Sum.inl
    ++ (db.outbox.filter (fun o =>
       o.conversation == some conv
       && !o.isDeleted
       && ["Note", "Page", "Article"].contains o.apType
       && allowedVisibility.contains o.visibility)).map Sum.inr

/-- `nodes_by_in_reply_to[key]`: the candidate nodes grouped by their
`in_reply_to` (in insertion order, as the defaultdict of lists). -/
def nodes_by_in_reply_to (nodes : List AnyboxObject) (key : Option String) :
    List AnyboxObject :=
  nodes.filter (fun n => AnyboxObject.inReplyTo n == key)

/-- `_get_reply_node_children` (fuel-bounded: the Python recursion has no
cycle protection). -/
def _get_reply_node_children (requestedApId : String)
    (nodes : List AnyboxObject) :
    Nat → AnyboxObject → Option (List ReplyTreeNode)
  | 0, _ => none
  | Nat.succ fuel, nodeObj =>
    let childObjs := nodes_by_in_reply_to nodes (some (AnyboxObject.apId nodeObj))
    match childObjs.mapM (fun child =>
        (_get_reply_node_children requestedApId nodes fuel child).map (fun cs =>
          ReplyTreeNode.mk child cs (AnyboxObject.apId child == requestedApId)
            false)) with
    | none => none
    | some children =>
      some (List.insertionSort (fun a b =>
        AnyboxObject.apPublishedAt (ReplyTreeNode.apObject a)
          ≤ AnyboxObject.apPublishedAt (ReplyTreeNode.apObject b)) children)

/-- `get_replies_tree`. -/
def get_replies_tree (db : DB) (requested_object : AnyboxObject)
    (is_current_user_admin : Bool) (fuel : Nat) :
    Option (Except PyError ReplyTreeNode) :=
  let treeNodes := get_replies_tree_nodes db requested_object
    is_current_user_admin
  if 1 < (nodes_by_in_reply_to treeNodes none).length then
    some (.error (.valueError "Invalid replies tree"))
  else
    let rootChoice : Except PyError AnyboxObject :=
      match nodes_by_in_reply_to treeNodes none with
      | x :: _ => .ok x
      | [] =>
        match List.insertionSort (fun a b =>
            AnyboxObject.apPublishedAt a ≤ AnyboxObject.apPublishedAt b)
            treeNodes with
        | x :: _ => .ok x
        | [] => .error (.valueError "list index out of range")
    match rootChoice with
    | .error e => some (.error e)
    | .ok rootApObject =>
      match _get_reply_node_children (AnyboxObject.apId requested_object)
          treeNodes fuel rootApObject with
      | none => none
      | some children =>
        some (.ok (ReplyTreeNode.mk rootApObject children
          (AnyboxObject.apId rootApObject == AnyboxObject.apId requested_object)
          true))

/-! ## Test fixtures shared by the claim proofs -/

/-- A raw document with no fields set. -/
def emptyRawObject : RawObject := { toRawDoc := emptyRawDoc, object := none }

/-- An empty database (fresh ids start at 100 so fixture rows below are
older than the allocator). -/
def emptyDB : DB :=
  { actors := [], inbox := [], outbox := [], followers := [], following := [],
    notifications := [], pollAnswers := [], outgoingActivities := [],
    nextId := 100 }

/-- A remote `Person` actor fixture. -/
def mkActor (i : Nat) (apId server inbox : String) : Actor :=
  { id := i, apId := apId, apType := "Person", handle := none, server := server,
    inboxUrl := inbox, sharedInboxUrl := inbox, outboxUrl := inbox,
    alsoKnownAs := [], isBlocked := false, isDeleted := false }

/-- An inbox row fixture. -/
def mkInboxObject (i : Nat) (actor : Actor) (apType apId : String)
    (doc : RawObject) : InboxObject :=
  { id := i, server := urlHostname apId, actorId := actor.id,
    apActorId := actor.apId, apType := apType, apId := apId,
    apContext := doc.context, conversation := none, apPublishedAt := 0,
    apObject := doc, activityObjectApId := doc.activityObjectApId,
    visibility := .PUBLIC, relatesToInboxObjectId := none,
    relatesToOutboxObjectId := none, undoneByInboxObjectId := none,
    likedViaOutboxObjectApId := none, announcedViaOutboxObjectApId := none,
    isHiddenFromStream := true, repliesCount := 0, isDeleted := false,
    isTransient := false, quotedInboxObjectId := none }

/-- An outbox row fixture. -/
def mkOutboxObject (i : Nat) (apType apId : String) (doc : RawObject) :
    OutboxObject :=
  { id := i, publicId := Nat.repr i, apType := apType, apId := apId,
    apContext := doc.context, conversation := none, apPublishedAt := 0,
    apObject := doc, activityObjectApId := doc.activityObjectApId,
    visibility := .PUBLIC, likesCount := 0, announcesCount := 0,
    repliesCount := 0, source := none, isDeleted := false,
    isHiddenFromHomepage := false, isTransient := false,
    relatesToInboxObjectId := none, relatesToOutboxObjectId := none,
    relatesToActorId := none, undoneByOutboxObjectId := none }

/-- An inert environment: empty block lists, every remote fetch fails,
no recipients resolve. -/
def env0 : Env :=
  { now := 1000, blockedServers := [], manuallyApprovesFollowers := false,
    remoteActors := fun _ => none, fetchObject := fun _ => .notFound,
    verifyLdSig := fun _ => false, computeRecipients := fun _ _ => [],
    parseCollection := fun _ => [] }

/-! ## C9: outbound Undo rejects unsupported target types -/

/-- C9: for every outbox object whose `ap_type` is not one of `Follow`,
`Like` or `Announce`, `send_undo` raises a `ValueError` before any
persistence step runs, so no new OutboxObject row, no
`undone_by_outbox_object_id` mark and no delivery work item is created
(the `.error` result carries no session state: nothing commits). -/
theorem C9_send_undo_rejects_unsupported_targets (env : Env) (db : DB)
    (apObjectId : String) (o : OutboxObject)
    (hfound : get_outbox_object_by_ap_id db apObjectId = some o)
    (htype : (["Follow", "Like", "Announce"].contains o.apType) = false) :
    send_undo env db apObjectId =
      .error (.valueError ("Cannot build Undo for " ++ o.apType ++ " activity")) := by
  simp only [send_undo, _send_undo, hfound]
  rw [htype]
  rfl

/-- An outbox `Note` (an unsupported Undo target). -/
def C9note : OutboxObject :=
  mkOutboxObject 1 "Note" (BASE_URL ++ "/o/n1")
    { emptyRawObject with id := some (BASE_URL ++ "/o/n1"), apType := "Note" }

/-- A database holding only the outbox `Note`. -/
def C9db : DB := { emptyDB with outbox := [C9note] }

/-- C9 witness: undoing a `Note` is rejected with the validation error. -/
theorem C9_send_undo_rejects_unsupported_targets_witness :
    send_undo env0 C9db (BASE_URL ++ "/o/n1") =
      .error (.valueError ("Cannot build Undo for " ++ C9note.apType ++ " activity")) :=
  C9_send_undo_rejects_unsupported_targets env0 C9db (BASE_URL ++ "/o/n1") C9note
    (by decide) (by decide)

/-! ## C5: conversation-root resolution does not terminate on a cycle -/

/-- A remote note that is its own `inReplyTo` parent. -/
def C5selfDoc : RawObject :=
  { emptyRawObject with
    id := some "https://remote.example/s"
    apType := "Note"
    inReplyTo := some "https://remote.example/s" }

/-- The author of the self-referential note. -/
def C5actor : Actor :=
  mkActor 1 "https://remote.example/alice" "remote.example"
    "https://remote.example/inbox"

/-- The self-referential note, stored locally as an inbox object. -/
def C5self : InboxObject :=
  mkInboxObject 2 C5actor "Note" "https://remote.example/s" C5selfDoc

/-- A database holding the self-referential chain. -/
def C5db : DB := { emptyDB with actors := [C5actor], inbox := [C5self] }

set_option maxRecDepth 8000 in
/-- C5: `fetch_conversation_root` has no repeated-ap-id check, so on a
locally stored self-referential `in_reply_to` chain it recurses forever:
for every recursion budget it fails to produce a root (in Python this is an
unbounded recursion ending in `RecursionError`), contradicting the claim
that a repeated ap id in the resolution path is treated as the root. -/
theorem C5_conversation_root_diverges_on_self_reply (fuel : Nat) :
    fetch_conversation_root env0 fuel C5db C5self.toConvObject false = none := by
  induction fuel with
  | zero => rfl
  | succ n ih => exact Eq.trans (by rfl) ih

/-! ## C2: replies-count is recomputed before the reply is marked deleted -/

/-- C2: the remote author of the reply. -/
def C2alice : Actor :=
  mkActor 10 "https://remote.example/alice" "remote.example"
    "https://remote.example/inbox"

/-- C2: a local post with one recorded reply. -/
def C2post : OutboxObject :=
  { mkOutboxObject 1 "Note" (BASE_URL ++ "/o/x")
      { emptyRawObject with id := some (BASE_URL ++ "/o/x"), apType := "Note" }
    with repliesCount := 1 }

/-- C2: the live remote reply to the local post. -/
def C2reply : InboxObject :=
  mkInboxObject 2 C2alice "Note" "https://remote.example/r"
    { emptyRawObject with
      id := some "https://remote.example/r"
      apType := "Note"
      inReplyTo := some (BASE_URL ++ "/o/x") }

/-- C2: the inbound Delete for the reply. -/
def C2delete : InboxObject :=
  mkInboxObject 3 C2alice "Delete" "https://remote.example/d"
    { emptyRawObject with
      id := some "https://remote.example/d"
      apType := "Delete"
      objectRef := some "https://remote.example/r" }

/-- C2: the store before the Delete is handled. -/
def C2db : DB :=
  { emptyDB with
    actors := [C2alice]
    outbox := [C2post]
    inbox := [C2reply, C2delete] }

/-- C2: the store after the Delete is handled. -/
def C2dbAfter : DB :=
  _handle_delete_activity C2db C2alice C2delete (some C2reply) none

/-- C2: handling a Delete for the only reply of a local post recomputes the
parent's `replies_count` while the reply is still live (`is_deleted` is set
only after the side-effect reversion), so the persisted counter stays `1`
even though the live count over both stores is `0` afterwards — deleting a
reply does not decrement the parent's counter, contradicting the claimed
invariant `replies_count(X) = live count of non-deleted replies`. -/
theorem C2_delete_reply_keeps_stale_replies_count :
    ((get_outbox_object_by_ap_id C2dbAfter (BASE_URL ++ "/o/x")).map
        (fun o => o.repliesCount) = some 1)
    ∧ _get_replies_count C2dbAfter (BASE_URL ++ "/o/x") = 0
    ∧ ((get_inbox_object_by_ap_id C2dbAfter "https://remote.example/r").map
        (fun o => o.isDeleted) = some true) := by decide

/-! ## C4: the Announce counter-reversion branch tests a misspelled type -/

/-- C4: the actor whose Announce is deleted. -/
def C4carol : Actor :=
  mkActor 10 "https://remote.example/carol" "remote.example"
    "https://remote.example/inbox"

/-- C4: the actor whose Like is deleted. -/
def C4dave : Actor :=
  mkActor 11 "https://remote.example/dave" "remote.example"
    "https://remote.example/inbox"

/-- C4: a local post with five recorded likes and five announces. -/
def C4post : OutboxObject :=
  { mkOutboxObject 1 "Note" (BASE_URL ++ "/o/p")
      { emptyRawObject with id := some (BASE_URL ++ "/o/p"), apType := "Note" }
    with likesCount := 5, announcesCount := 5 }

/-- C4: a recorded inbound Announce of the local post. -/
def C4announce : InboxObject :=
  mkInboxObject 2 C4carol "Announce" "https://remote.example/ann"
    { emptyRawObject with
      id := some "https://remote.example/ann"
      apType := "Announce"
      objectRef := some (BASE_URL ++ "/o/p") }

/-- C4: a recorded inbound Like of the local post. -/
def C4like : InboxObject :=
  mkInboxObject 3 C4dave "Like" "https://remote.example/like"
    { emptyRawObject with
      id := some "https://remote.example/like"
      apType := "Like"
      objectRef := some (BASE_URL ++ "/o/p") }

/-- C4: the inbound Delete for the Announce. -/
def C4deleteAnnounce : InboxObject :=
  mkInboxObject 4 C4carol "Delete" "https://remote.example/d1"
    { emptyRawObject with
      id := some "https://remote.example/d1"
      apType := "Delete"
      objectRef := some "https://remote.example/ann" }

/-- C4: the inbound Delete for the Like. -/
def C4deleteLike : InboxObject :=
  mkInboxObject 5 C4dave "Delete" "https://remote.example/d2"
    { emptyRawObject with
      id := some "https://remote.example/d2"
      apType := "Delete"
      objectRef := some "https://remote.example/like" }

/-- C4: the store before either Delete is handled. -/
def C4db : DB :=
  { emptyDB with
    actors := [C4carol, C4dave]
    outbox := [C4post]
    inbox := [C4announce, C4like, C4deleteAnnounce, C4deleteLike] }

/-- C4: handling the Delete of a recorded `Announce` of a local post leaves
`announces_count` at `5` — the reversion branch compares `ap_type` against
the misspelled string `"Annouce"` and never fires — while the symmetric
Like case correctly decrements `likes_count` from `5` to `4`, and the
Announce row itself is marked deleted. -/
theorem C4_announce_count_not_reverted_on_delete :
    ((get_outbox_object_by_ap_id
        (_handle_delete_activity C4db C4carol C4deleteAnnounce (some C4announce) none)
        (BASE_URL ++ "/o/p")).map (fun o => o.announcesCount) = some 5)
    ∧ ((get_outbox_object_by_ap_id
        (_handle_delete_activity C4db C4dave C4deleteLike (some C4like) none)
        (BASE_URL ++ "/o/p")).map (fun o => o.likesCount) = some 4)
    ∧ ((get_inbox_object_by_ap_id
        (_handle_delete_activity C4db C4carol C4deleteAnnounce (some C4announce) none)
        "https://remote.example/ann").map (fun o => o.isDeleted) = some true) := by
  decide

/-! ## C1: ingesting a duplicate activity is a no-op -/

/-- C1: when a non-transient activity (with an `id`, from a resolvable,
unblocked actor already cached in the directory, delivered by its own
author) carries an `ap_id` that already exists as an InboxObject,
`save_to_inbox` returns with the session unchanged: no new InboxObject row,
no counter change, no notification and no delivery work item — so a second
ingestion of the same raw activity leaves exactly the state of the first. -/
theorem C1_duplicate_ingestion_is_noop (env : Env) (fuel : Nat) (db : DB)
    (raw : RawObject) (sentBy actorApId objId : String) (a : Actor)
    (htype : ACTOR_TYPES.contains raw.apType = false)
    (hid : raw.id = some objId)
    (hactorField : raw.actor = some actorApId)
    (hcached : db.actors.find? (fun x => x.apId == actorApId) = some a)
    (hserver : env.blockedServers.contains a.server = false)
    (hblocked : a.isBlocked = false)
    (hsent : sentBy = a.apId)
    (hdup : 0 < (db.inbox.filter (fun o => o.apId == objId)).length) :
    save_to_inbox env fuel db raw sentBy = some (.ok db) := by
  subst hsent
  have hfa : fetch_actor env db actorApId = some (a, db) := by
    unfold fetch_actor
    rw [hcached]
  simp only [save_to_inbox, htype, hid, hactorField, hfa, hserver, hblocked,
    hdup, Bool.false_eq_true, if_false, ne_eq, not_true_eq_false, ite_true,
    ite_false, if_true]

/-- C1: the already-known sender. -/
def C1alice : Actor :=
  mkActor 10 "https://remote.example/alice" "remote.example"
    "https://remote.example/inbox"

/-- C1: a raw Like activity. -/
def C1raw : RawObject :=
  { emptyRawObject with
    id := some "https://remote.example/act1"
    apType := "Like"
    actor := some "https://remote.example/alice"
    objectRef := some (BASE_URL ++ "/o/z") }

/-- C1: the InboxObject persisted by the first ingestion of the Like. -/
def C1existing : InboxObject :=
  mkInboxObject 2 C1alice "Like" "https://remote.example/act1" C1raw

/-- C1: the store after the first ingestion. -/
def C1db : DB := { emptyDB with actors := [C1alice], inbox := [C1existing] }

/-- C1 witness: redelivering the already-ingested Like changes nothing. -/
theorem C1_duplicate_ingestion_is_noop_witness :
    save_to_inbox env0 0 C1db C1raw "https://remote.example/alice" =
      some (.ok C1db) :=
  C1_duplicate_ingestion_is_noop env0 0 C1db C1raw
    "https://remote.example/alice" "https://remote.example/alice"
    "https://remote.example/act1" C1alice (by decide) (by decide) (by decide)
    (by decide) (by decide) (by decide) (by decide) (by decide)

/-! ## C3: the delete cascade only covers the outbox store -/

/-- Enqueueing delivery work items never touches the outbox table. -/
theorem foldl_new_outgoing_outbox (l : List String) (d : DB)
    (x y : Option Nat) :
    (l.foldl (fun acc rcp => new_outgoing_activity acc rcp x y) d).outbox
      = d.outbox := by
  induction l generalizing d with
  | nil => rfl
  | cons h t ih => simpa [new_outgoing_activity] using ih _

/-- Every row matched by the cascade update ends up deleted. -/
theorem cascade_marks_matching_rows (d : DB) (apId : String) :
    ∀ o' ∈ (d.updateOutboxWhere
        (fun o => o.activityObjectApId == some apId)
        (fun o => { o with isDeleted := true })).outbox,
      o'.activityObjectApId = some apId → o'.isDeleted = true := by
  intro o' hmem htarget
  simp only [DB.updateOutboxWhere, List.mem_map] at hmem
  obtain ⟨o, _, ho⟩ := hmem
  by_cases hc : o.activityObjectApId = some apId
  · simp only [hc, beq_self_eq_true, if_true] at ho
    rw [← ho]
  · simp only [beq_eq_false_iff_ne.mpr hc, Bool.false_eq_true, if_false] at ho
    rw [← ho] at htarget
    exact absurd htarget hc

/-- After the side-effect reversion for a deleted object, every outbox row
whose `activity_object_ap_id` is the deleted object's ap id is deleted
(the cascade is the last outbox mutation the reversion performs). -/
theorem revert_cascades_outbox (db : DB) (da obj : InboxObject)
    (fwd : Option Actor) :
    ∀ o' ∈ (_revert_side_effect_for_deleted_object db da obj fwd).outbox,
      o'.activityObjectApId = some obj.apId → o'.isDeleted = true := by
  intro o' hmem htarget
  unfold _revert_side_effect_for_deleted_object at hmem
  simp only [] at hmem
  split at hmem
  · rw [foldl_new_outgoing_outbox] at hmem
    exact cascade_marks_matching_rows _ _ o' hmem htarget
  · exact cascade_marks_matching_rows _ _ o' hmem htarget

/-- Marking a row deleted by id really deletes every row with that id. -/
theorem mem_updateInboxRow_marked (d : DB) (rid : Nat) :
    ∀ o' ∈ (d.updateInboxRow rid (fun o => { o with isDeleted := true })).inbox,
      o'.id = rid → o'.isDeleted = true := by
  intro o' hmem hid
  simp only [DB.updateInboxRow, List.mem_map] at hmem
  obtain ⟨o, _, ho⟩ := hmem
  by_cases hc : o.id = rid
  · simp only [hc, if_true] at ho
    rw [← ho]
  · simp only [hc, if_false] at ho
    rw [← ho] at hid
    exact absurd hid hc

/-- C3 (amended): when an inbound Delete removes a known inbox object whose
owner matches the deleting actor, the cascade marks deleted every *outbox*
activity whose `activity_object_ap_id` equals the deleted object's ap id,
and the deleted object's own row is marked deleted; inbound (inbox-store)
activities referencing the deleted object are not cascaded (see the
counterexample). -/
theorem C3_delete_cascade_covers_outbox_only (db : DB) (from_actor : Actor)
    (delete_activity obj : InboxObject) (fwd : Option Actor)
    (hmatch : from_actor.apId = obj.apActorId) :
    (∀ o' ∈ (_handle_delete_activity db from_actor delete_activity
        (some obj) fwd).outbox,
      o'.activityObjectApId = some obj.apId → o'.isDeleted = true)
    ∧ (∀ o' ∈ (_handle_delete_activity db from_actor delete_activity
        (some obj) fwd).inbox,
      o'.id = obj.id → o'.isDeleted = true) := by
  simp only [_handle_delete_activity]
  rw [if_neg (by simp [hmatch])]
  constructor
  · intro o' hmem ht
    exact revert_cascades_outbox db delete_activity obj fwd o' hmem ht
  · exact mem_updateInboxRow_marked _ _

/-- C3: the remote author of the deleted post. -/
def C3bob : Actor :=
  mkActor 10 "https://remote.example/bob" "remote.example"
    "https://remote.example/inbox"

/-- C3: a remote actor whose Like of the post was recorded inbound. -/
def C3carol : Actor :=
  mkActor 11 "https://remote.example/carol" "remote.example"
    "https://remote.example/inbox"

/-- C3: the remote post being deleted. -/
def C3post : InboxObject :=
  mkInboxObject 2 C3bob "Note" "https://remote.example/p"
    { emptyRawObject with
      id := some "https://remote.example/p", apType := "Note" }

/-- C3: a recorded inbound Like of the post (inbox store). -/
def C3inboundLike : InboxObject :=
  mkInboxObject 3 C3carol "Like" "https://remote.example/like1"
    { emptyRawObject with
      id := some "https://remote.example/like1"
      apType := "Like"
      objectRef := some "https://remote.example/p" }

/-- C3: the local actor's own Like of the post (outbox store). -/
def C3outboxLike : OutboxObject :=
  mkOutboxObject 5 "Like" (BASE_URL ++ "/o/like")
    { emptyRawObject with
      id := some (BASE_URL ++ "/o/like")
      apType := "Like"
      objectRef := some "https://remote.example/p" }

/-- C3: the inbound Delete for the post. -/
def C3delete : InboxObject :=
  mkInboxObject 6 C3bob "Delete" "https://remote.example/d"
    { emptyRawObject with
      id := some "https://remote.example/d"
      apType := "Delete"
      objectRef := some "https://remote.example/p" }

/-- C3: the store before the Delete is handled. -/
def C3db : DB :=
  { emptyDB with
    actors := [C3bob, C3carol]
    inbox := [C3post, C3inboundLike]
    outbox := [C3outboxLike] }

/-- C3 counterexample: after the inbound Delete of the post, the recorded
*inbound* Like whose `activity_object_ap_id` equals the deleted post's ap id
is still `is_deleted = false` (only the outbox-store Like and the post
itself were marked), refuting "every other stored activity (in either
store) ... is also marked `is_deleted=true`". -/
theorem C3_inbound_like_not_cascaded :
    ((get_inbox_object_by_ap_id
        (_handle_delete_activity C3db C3bob C3delete (some C3post) none)
        "https://remote.example/like1").map (fun o => o.isDeleted) = some false)
    ∧ ((get_inbox_object_by_ap_id
        (_handle_delete_activity C3db C3bob C3delete (some C3post) none)
        "https://remote.example/p").map (fun o => o.isDeleted) = some true)
    ∧ ((get_outbox_object_by_ap_id
        (_handle_delete_activity C3db C3bob C3delete (some C3post) none)
        (BASE_URL ++ "/o/like")).map (fun o => o.isDeleted) = some true) := by
  decide

/-- C3 witness for the amended theorem, at the counterexample's store: the
outbox Like is cascaded and the post row is marked deleted. -/
theorem C3_delete_cascade_covers_outbox_only_witness :
    ((_handle_delete_activity C3db C3bob C3delete (some C3post) none).outbox.all
      (fun o => !(o.activityObjectApId == some "https://remote.example/p")
        || o.isDeleted) = true)
    ∧ ((_handle_delete_activity C3db C3bob C3delete (some C3post) none).inbox.all
      (fun o => !(o.id == 2) || o.isDeleted) = true) := by
  have h := C3_delete_cascade_covers_outbox_only C3db C3bob C3delete C3post none
    (by decide)
  constructor
  · rw [List.all_eq_true]
    intro o hmem
    by_cases hc : o.activityObjectApId = some "https://remote.example/p"
    · have := h.1 o hmem (by rw [hc]; rfl)
      simp [this]
    · simp [hc]
  · rw [List.all_eq_true]
    intro o hmem
    by_cases hc : o.id = 2
    · have := h.2 o hmem (by rw [hc]; rfl)
      simp [this]
    · simp [hc]

/-! ## C7: Move handling -/

/-- Resolving an actor only ever adds to the actor table: every other table
is untouched. -/
theorem fetch_actor_preserves (env : Env) (db : DB) (apId : String)
    (a : Actor) (db1 : DB) (h : fetch_actor env db apId = some (a, db1)) :
    db1.inbox = db.inbox ∧ db1.outbox = db.outbox
    ∧ db1.followers = db.followers ∧ db1.following = db.following
    ∧ db1.notifications = db.notifications
    ∧ db1.pollAnswers = db.pollAnswers
    ∧ db1.outgoingActivities = db.outgoingActivities := by
  unfold fetch_actor at h
  split at h
  · injection h with h1
    rw [Prod.mk.injEq] at h1
    obtain ⟨-, h2⟩ := h1
    subst h2
    exact ⟨rfl, rfl, rfl, rfl, rfl, rfl, rfl⟩
  · split at h
    · injection h with h1
      rw [Prod.mk.injEq] at h1
      obtain ⟨-, h2⟩ := h1
      subst h2
      exact ⟨rfl, rfl, rfl, rfl, rfl, rfl, rfl⟩
    · exact absurd h (by simp)

/-- C7: the old (moving) actor, currently followed. -/
def C7old : Actor :=
  mkActor 1 "https://old.example/u" "old.example" "https://old.example/inbox"

/-- C7: the target actor document, listing the old actor as an alias. -/
def C7newActor : Actor :=
  { mkActor 0 "https://new.example/u" "new.example" "https://new.example/inbox"
    with alsoKnownAs := ["https://old.example/u"] }

/-- C7: the outbox Follow that created the Following relationship. -/
def C7followOutbox : OutboxObject :=
  mkOutboxObject 10 "Follow" (BASE_URL ++ "/o/10")
    { emptyRawObject with
      id := some (BASE_URL ++ "/o/10")
      apType := "Follow"
      actor := some LOCAL_ACTOR_AP_ID
      objectRef := some "https://old.example/u" }

/-- C7: the Move activity document. -/
def C7moveDoc : RawObject :=
  { emptyRawObject with
    id := some "https://old.example/move1"
    apType := "Move"
    actor := some "https://old.example/u"
    objectRef := some "https://old.example/u"
    target := some "https://new.example/u" }

/-- C7: the persisted Move activity. -/
def C7move : InboxObject :=
  mkInboxObject 20 C7old "Move" "https://old.example/move1" C7moveDoc

/-- C7: a second, re-issued Move (fresh id, same content). -/
def C7move2 : InboxObject :=
  mkInboxObject 21 C7old "Move" "https://old.example/move2"
    { C7moveDoc with id := some "https://old.example/move2" }

/-- C7: an environment that can dereference the new actor. -/
def C7env : Env :=
  { env0 with remoteActors := fun apId =>
      if apId == "https://new.example/u" then some C7newActor else none }

/-- C7: the store before the Move: following the old actor. -/
def C7db : DB :=
  { emptyDB with
    actors := [C7old]
    following := [{ actorId := 1, outboxObjectId := 10,
                    apActorId := "https://old.example/u" }]
    outbox := [C7followOutbox]
    nextId := 50 }

/-- C7: the store after the first Move processing. -/
def C7after1 : DB :=
  match _handle_move_activity C7env C7db C7old C7move with
  | .ok d => d
  | .error _ => emptyDB

/-- C7 counterexample: the first processing of a valid Move (alias present,
old actor followed) succeeds, but afterwards the Following table is empty —
the relationship did *not* shift to the new actor (only a Follow request
was sent; a Following row appears only once the new actor Accepts), so a
second processing cannot "find the new actor already followed" as the claim
states: there is no Following row for it to find. -/
theorem C7_no_following_row_after_move :
    (_handle_move_activity C7env C7db C7old C7move = .ok C7after1)
    ∧ C7after1.following = [] := by decide

/-- C7 (amended): a Move whose target actor does not list the moving actor
in `alsoKnownAs` is rejected with no Undo, no Follow, no notification and
no delivery item (only the freshly fetched target actor may be cached); a
valid Move with the old actor followed removes the old Following row and
sends exactly one Follow to the new actor, and processing a re-issued Move
a second time finds the old actor no longer followed and changes nothing
(no duplicate Follow) — not because the new actor is "already followed",
which it is not until its Accept arrives. -/
theorem C7_move_shifts_follow_request_once :
    (∀ (env : Env) (db : DB) (from_actor : Actor) (move : InboxObject)
        (newActor : Actor) (db1 : DB) (oldId targetId : String),
      move.apObject.getObjectId = some oldId →
      oldId = from_actor.apId →
      move.apObject.target = some targetId →
      fetch_actor env db targetId = some (newActor, db1) →
      newActor.alsoKnownAs.contains oldId = false →
      _handle_move_activity env db from_actor move = .ok db1
        ∧ db1.following = db.following ∧ db1.followers = db.followers
        ∧ db1.outbox = db.outbox ∧ db1.notifications = db.notifications
        ∧ db1.outgoingActivities = db.outgoingActivities)
    ∧ ((_handle_move_activity C7env C7db C7old C7move = .ok C7after1)
        ∧ C7after1.following = []
        ∧ (C7after1.outbox.filter (fun o => o.apType == "Follow"
            && o.activityObjectApId == some "https://new.example/u")).length = 1
        ∧ _handle_move_activity C7env C7after1 C7old C7move2 = .ok C7after1) := by
  constructor
  · intro env db from_actor move newActor db1 oldId targetId hobj hmatch htarget
      hfetch halias
    subst hmatch
    have hpres := fetch_actor_preserves env db targetId newActor db1 hfetch
    refine ⟨?_, hpres.2.2.2.1, hpres.2.2.1, hpres.2.1, hpres.2.2.2.2.1,
      hpres.2.2.2.2.2.2⟩
    simp only [_handle_move_activity, hobj, htarget, hfetch, halias, ne_eq,
      not_true_eq_false, if_false, Bool.not_false, if_true, ite_true,
      ite_false]
  · exact ⟨by decide, by decide, by decide, by decide⟩

/-- C7: the target actor without an alias for the old one. -/
def C7newActorNoAlias : Actor :=
  mkActor 0 "https://new.example/u" "new.example" "https://new.example/inbox"

/-- C7: an environment whose target actor has no alias for the old one. -/
def C7envNoAlias : Env :=
  { env0 with remoteActors := fun apId =>
      if apId == "https://new.example/u" then some C7newActorNoAlias else none }

/-- C7: the target actor as persisted by the directory (fresh id 50). -/
def C7noAliasActorSaved : Actor :=
  mkActor 50 "https://new.example/u" "new.example" "https://new.example/inbox"

/-- C7: the store after the target actor is cached (rejection path). -/
def C7noAliasDb1 : DB :=
  { C7db with actors := C7db.actors ++ [C7noAliasActorSaved], nextId := 51 }

/-- C7 witness: a Move whose target lacks the alias is rejected with no
side effect beyond caching the fetched actor. -/
theorem C7_move_shifts_follow_request_once_witness :
    _handle_move_activity C7envNoAlias C7db C7old C7move = .ok C7noAliasDb1
      ∧ C7noAliasDb1.following = C7db.following
      ∧ C7noAliasDb1.followers = C7db.followers
      ∧ C7noAliasDb1.outbox = C7db.outbox
      ∧ C7noAliasDb1.notifications = C7db.notifications
      ∧ C7noAliasDb1.outgoingActivities = C7db.outgoingActivities :=
  C7_move_shifts_follow_request_once.1 C7envNoAlias C7db C7old C7move
    C7noAliasActorSaved C7noAliasDb1 "https://old.example/u"
    "https://new.example/u" (by decide) (by decide) (by decide) (by decide)
    (by decide)

/-! ## C8: poll vote handling -/

/-- C8: a local Question with options A and B and no recorded vote. -/
def C8question : OutboxObject :=
  mkOutboxObject 1 "Question" (BASE_URL ++ "/o/q")
    { emptyRawObject with
      id := some (BASE_URL ++ "/o/q")
      apType := "Question"
      votersCount := some 0
      oneOf := some [⟨"A", 0⟩, ⟨"B", 0⟩] }

/-- C8: the first voter. -/
def C8v1 : Actor :=
  mkActor 21 "https://remote.example/v1" "remote.example"
    "https://remote.example/inbox"

/-- C8: the second voter. -/
def C8v2 : Actor :=
  mkActor 22 "https://remote.example/v2" "remote.example"
    "https://remote.example/inbox"

/-- C8: the third voter. -/
def C8v3 : Actor :=
  mkActor 23 "https://remote.example/v3" "remote.example"
    "https://remote.example/inbox"

/-- C8: a vote reply naming an option. -/
def C8vote (i : Nat) (voter : Actor) (apId nm : String) : InboxObject :=
  mkInboxObject i voter "Note" apId
    { emptyRawObject with
      id := some apId
      apType := "Note"
      name := some nm
      inReplyTo := some (BASE_URL ++ "/o/q") }

/-- C8: the first A vote. -/
def C8ans1 : InboxObject := C8vote 11 C8v1 "https://remote.example/vote1" "A"

/-- C8: the second A vote (a distinct actor). -/
def C8ans2 : InboxObject := C8vote 12 C8v2 "https://remote.example/vote2" "A"

/-- C8: the B vote (a third actor). -/
def C8ans3 : InboxObject := C8vote 13 C8v3 "https://remote.example/vote3" "B"

/-- C8: an environment resolving the Question's recipients to one inbox. -/
def C8env : Env :=
  { env0 with computeRecipients := fun _ _ => ["https://r.example/inbox"] }

/-- C8: the store before any vote. -/
def C8db : DB :=
  { emptyDB with
    actors := [C8v1, C8v2, C8v3]
    outbox := [C8question]
    inbox := [C8ans1, C8ans2, C8ans3] }

/-- C8: handling the first vote. -/
def C8step1 : Except PyError DB :=
  _handle_vote_answer C8env C8db C8ans1 C8question

/-- C8: the store after the first vote. -/
def C8db1 : DB := match C8step1 with | .ok d => d | .error _ => emptyDB

/-- C8: the Question row as re-fetched after the first vote. -/
def C8q1 : OutboxObject :=
  (get_outbox_object_by_ap_id C8db1 (BASE_URL ++ "/o/q")).getD C8question

/-- C8: handling the second vote. -/
def C8step2 : Except PyError DB :=
  _handle_vote_answer C8env C8db1 C8ans2 C8q1

/-- C8: the store after the second vote. -/
def C8db2 : DB := match C8step2 with | .ok d => d | .error _ => emptyDB

/-- C8: the Question row as re-fetched after the second vote. -/
def C8q2 : OutboxObject :=
  (get_outbox_object_by_ap_id C8db2 (BASE_URL ++ "/o/q")).getD C8question

/-- C8: handling the third vote. -/
def C8step3 : Except PyError DB :=
  _handle_vote_answer C8env C8db2 C8ans3 C8q2

/-- C8: the store after all three votes. -/
def C8db3 : DB := match C8step3 with | .ok d => d | .error _ => emptyDB

/-- C8: a vote after the question's end time is discarded with no PollAnswer
and no tally change; a vote naming an undeclared option likewise; and for
valid votes A, A, B from three distinct actors the rewritten Question
document carries `votersCount = 3` (distinct voting actors) and per-option
`replies.totalItems` of A = 2 and B = 1, three PollAnswer rows are recorded,
and each vote re-delivers the updated Question (one delivery work item per
resolved recipient, referencing the Question's outbox row). -/
theorem C8_poll_vote_tallies :
    (∀ (env : Env) (db : DB) (answer : InboxObject) (question : OutboxObject),
      OutboxObject.isPollEnded env.now question = true →
      _handle_vote_answer env db answer question = .ok db)
    ∧ (∀ (env : Env) (db : DB) (answer : InboxObject) (question : OutboxObject)
        (items : List PollItem) (nm : String),
      OutboxObject.isPollEnded env.now question = false →
      question.pollItems = some items →
      items.isEmpty = false →
      answer.apObject.name = some nm →
      (items.map (fun pi => pi.name)).contains nm = false →
      _handle_vote_answer env db answer question = .ok db)
    ∧ (C8step1 = .ok C8db1 ∧ C8step2 = .ok C8db2 ∧ C8step3 = .ok C8db3
      ∧ ((get_outbox_object_by_ap_id C8db3 (BASE_URL ++ "/o/q")).map
          (fun o => o.apObject.votersCount) = some (some 3))
      ∧ ((get_outbox_object_by_ap_id C8db3 (BASE_URL ++ "/o/q")).map
          (fun o => o.apObject.oneOf) = some (some [⟨"A", 2⟩, ⟨"B", 1⟩]))
      ∧ C8db3.pollAnswers.length = 3
      ∧ C8db3.outgoingActivities =
          [⟨"https://r.example/inbox", some 1, none⟩,
           ⟨"https://r.example/inbox", some 1, none⟩,
           ⟨"https://r.example/inbox", some 1, none⟩]) := by
  refine ⟨?_, ?_, ?_⟩
  · intro env db answer question hended
    simp only [_handle_vote_answer, hended, if_true]
  · intro env db answer question items nm hended hitems hempty hname hmiss
    simp only [_handle_vote_answer, hended, hitems, hempty, hname, hmiss,
      Bool.false_eq_true, if_false, Bool.not_false, if_true, ite_true,
      ite_false]
  · exact ⟨by decide, by decide, by decide, by decide, by decide, by decide,
      by decide⟩

/-- C8: the same Question but already past its end time. -/
def C8endedQuestion : OutboxObject :=
  { C8question with apObject := { C8question.apObject with endTime := some 10 } }

/-- C8: a vote naming an undeclared option. -/
def C8ansBad : InboxObject := C8vote 14 C8v1 "https://remote.example/vote4" "C"

/-- C8 witness: the late vote and the invalid-option vote are both discarded
with the store unchanged. -/
theorem C8_poll_vote_tallies_witness :
    _handle_vote_answer C8env C8db C8ans1 C8endedQuestion = .ok C8db
    ∧ _handle_vote_answer C8env C8db C8ansBad C8question = .ok C8db :=
  ⟨C8_poll_vote_tallies.1 C8env C8db C8ans1 C8endedQuestion (by decide),
   C8_poll_vote_tallies.2.1 C8env C8db C8ansBad C8question
     [⟨"A", 0⟩, ⟨"B", 0⟩] "C" (by decide) (by decide) (by decide) (by decide)
     (by decide)⟩

/-! ## C10: reply-tree root selection -/

/-- C10: more than one parentless candidate raises; a tree, when returned,
is rooted at the unique parentless candidate when there is exactly one, and
at an earliest-published candidate when there is none. -/
theorem C10_reply_tree_root_selection :
    (∀ (db : DB) (req : AnyboxObject) (admin : Bool) (fuel : Nat),
      1 < (nodes_by_in_reply_to (get_replies_tree_nodes db req admin)
        none).length →
      get_replies_tree db req admin fuel
        = some (.error (.valueError "Invalid replies tree")))
    ∧ (∀ (db : DB) (req : AnyboxObject) (admin : Bool) (fuel : Nat)
        (x : AnyboxObject) (t : ReplyTreeNode),
      nodes_by_in_reply_to (get_replies_tree_nodes db req admin) none = [x] →
      get_replies_tree db req admin fuel = some (.ok t) →
      t.apObject = x)
    ∧ (∀ (db : DB) (req : AnyboxObject) (admin : Bool) (fuel : Nat)
        (t : ReplyTreeNode),
      nodes_by_in_reply_to (get_replies_tree_nodes db req admin) none = [] →
      get_replies_tree db req admin fuel = some (.ok t) →
      t.apObject ∈ get_replies_tree_nodes db req admin
        ∧ ∀ n ∈ get_replies_tree_nodes db req admin,
            AnyboxObject.apPublishedAt t.apObject
              ≤ AnyboxObject.apPublishedAt n) := by
  haveI htot : IsTotal AnyboxObject (fun a b =>
      AnyboxObject.apPublishedAt a ≤ AnyboxObject.apPublishedAt b) :=
    ⟨fun a b => Int.le_total _ _⟩
  haveI htra : IsTrans AnyboxObject (fun a b =>
      AnyboxObject.apPublishedAt a ≤ AnyboxObject.apPublishedAt b) :=
    ⟨fun _ _ _ hab hbc => le_trans hab hbc⟩
  refine ⟨?_, ?_, ?_⟩
  · intro db req admin fuel h
    simp only [get_replies_tree]
    rw [if_pos h]
  · intro db req admin fuel x t h1 h2
    simp only [get_replies_tree, h1] at h2
    rw [if_neg (show ¬(1 < ([x] : List AnyboxObject).length) by norm_num)] at h2
    cases hc : _get_reply_node_children (AnyboxObject.apId req)
        (get_replies_tree_nodes db req admin) fuel x with
    | none => rw [hc] at h2; exact absurd h2 (by simp)
    | some children =>
      rw [hc] at h2
      simp only [Option.some.injEq, Except.ok.injEq] at h2
      rw [← h2]
      rfl
  · intro db req admin fuel t h1 h2
    simp only [get_replies_tree, h1] at h2
    rw [if_neg (show ¬(1 < ([] : List AnyboxObject).length) by norm_num)] at h2
    cases hs : List.insertionSort (fun a b =>
        AnyboxObject.apPublishedAt a ≤ AnyboxObject.apPublishedAt b)
        (get_replies_tree_nodes db req admin) with
    | nil => rw [hs] at h2; exact absurd h2 (by simp)
    | cons x rest =>
      rw [hs] at h2
      have h3 : (match _get_reply_node_children (AnyboxObject.apId req)
            (get_replies_tree_nodes db req admin) fuel x with
          | none => none
          | some children => some (Except.ok (ReplyTreeNode.mk x children
              (AnyboxObject.apId x == AnyboxObject.apId req) true)))
          = some (Except.ok t) := h2
      clear h2
      cases hc : _get_reply_node_children (AnyboxObject.apId req)
          (get_replies_tree_nodes db req admin) fuel x with
      | none => rw [hc] at h3; exact absurd h3 (by simp)
      | some children =>
        rw [hc] at h3
        simp only [Option.some.injEq, Except.ok.injEq] at h3
        have h2 : ReplyTreeNode.mk x children
            (AnyboxObject.apId x == AnyboxObject.apId req) true = t := h3
        have hperm := List.perm_insertionSort (fun a b =>
          AnyboxObject.apPublishedAt a ≤ AnyboxObject.apPublishedAt b)
          (get_replies_tree_nodes db req admin)
        have hsorted := List.sorted_insertionSort (fun a b =>
          AnyboxObject.apPublishedAt a ≤ AnyboxObject.apPublishedAt b)
          (get_replies_tree_nodes db req admin)
        rw [hs] at hperm hsorted
        have hxmem : t.apObject ∈ get_replies_tree_nodes db req admin := by
          rw [← h2]
          exact hperm.mem_iff.mp (List.mem_cons_self x rest)
        refine ⟨hxmem, ?_⟩
        intro n hn
        have hn2 : n ∈ x :: rest := hperm.mem_iff.mpr hn
        rw [← h2]
        rcases List.mem_cons.mp hn2 with hx | hrest
        · rw [hx]; exact le_refl _
        · exact List.rel_of_sorted_cons hsorted n hrest

/-- C10: an author for the conversation fixtures. -/
def C10actor : Actor :=
  mkActor 1 "https://remote.example/u1" "remote.example"
    "https://remote.example/inbox"

/-- C10: a conversation note fixture. -/
def C10note (i : Nat) (apId conv : String) (irt : Option String)
    (pub : Int) : InboxObject :=
  { mkInboxObject i C10actor "Note" apId
      { emptyRawObject with id := some apId, apType := "Note", inReplyTo := irt }
    with conversation := some conv, apPublishedAt := pub }

/-- C10: first parentless note of the two-root conversation. -/
def C10r1 : InboxObject := C10note 1 "https://remote.example/t1" "c1" none 1

/-- C10: second parentless note of the two-root conversation. -/
def C10r2 : InboxObject := C10note 2 "https://remote.example/t2" "c1" none 2

/-- C10: a conversation with two parentless candidates. -/
def C10dbTwoRoots : DB := { emptyDB with inbox := [C10r1, C10r2] }

/-- C10: the unique parentless note of the second conversation. -/
def C10single : InboxObject := C10note 3 "https://remote.example/s1" "c2" none 1

/-- C10: its reply. -/
def C10child : InboxObject :=
  C10note 4 "https://remote.example/s2" "c2" (some "https://remote.example/s1") 2

/-- C10: a conversation with exactly one parentless candidate. -/
def C10db2 : DB := { emptyDB with inbox := [C10single, C10child] }

/-- C10: the tree built for the single-root conversation. -/
def C10tree2 : ReplyTreeNode :=
  match get_replies_tree C10db2 (Sum.inl C10single) false 5 with
  | some (.ok t) => t
  | _ => ReplyTreeNode.mk (Sum.inl C10single) [] false false

/-- C10: first orphan reply (published later). -/
def C10n1 : InboxObject :=
  C10note 5 "https://remote.example/n1" "c3" (some "https://remote.example/gone") 5

/-- C10: second orphan reply (published earlier). -/
def C10n2 : InboxObject :=
  C10note 6 "https://remote.example/n2" "c3" (some "https://remote.example/gone") 3

/-- C10: a conversation with no parentless candidate. -/
def C10db3 : DB := { emptyDB with inbox := [C10n1, C10n2] }

/-- C10: the tree built for the orphan conversation. -/
def C10tree3 : ReplyTreeNode :=
  match get_replies_tree C10db3 (Sum.inl C10n1) false 5 with
  | some (.ok t) => t
  | _ => ReplyTreeNode.mk (Sum.inl C10n1) [] false false

/-- C10 witness: two parentless candidates raise the error; one parentless
candidate becomes the root; with none, the returned root is one of the
candidates (the earliest-published one, `C10n2`). -/
theorem C10_reply_tree_root_selection_witness :
    (get_replies_tree C10dbTwoRoots (Sum.inl C10r1) false 5
      = some (.error (.valueError "Invalid replies tree")))
    ∧ C10tree2.apObject = Sum.inl C10single
    ∧ C10tree3.apObject ∈ get_replies_tree_nodes C10db3 (Sum.inl C10n1) false
    ∧ C10tree3.apObject = Sum.inl C10n2 :=
  ⟨C10_reply_tree_root_selection.1 C10dbTwoRoots (Sum.inl C10r1) false 5
     (by decide),
   C10_reply_tree_root_selection.2.1 C10db2 (Sum.inl C10single) false 5
     (Sum.inl C10single) C10tree2 (by decide) rfl,
   (C10_reply_tree_root_selection.2.2 C10db3 (Sum.inl C10n1) false 5 C10tree3
     (by decide) rfl).1,
   by decide⟩

/-! ## C6: stream-eligibility of a materialized note -/

/-- The `is_hidden_from_stream` flag of the inbox row with the given id. -/
def findFlag (l : List InboxObject) (tid : Nat) : Option Bool :=
  (l.find? (fun o => o.id == tid)).map (fun o => o.isHiddenFromStream)

/-- Every inbox row id is below the fresh-id counter. -/
def inboxFresh (db : DB) : Prop := ∀ o ∈ db.inbox, o.id < db.nextId

/-- What one processing stage preserves about the inbox table: the hidden
flag of every pre-existing row, monotonicity of the id counter, and
freshness. -/
def Pres (db db1 : DB) : Prop :=
  (∀ tid, tid < db.nextId → findFlag db1.inbox tid = findFlag db.inbox tid)
  ∧ db.nextId ≤ db1.nextId ∧ (inboxFresh db → inboxFresh db1)

theorem Pres.refl (db : DB) : Pres db db :=
  ⟨fun _ _ => rfl, le_refl _, fun h => h⟩

theorem Pres.trans {db db1 db2 : DB} (h1 : Pres db db1) (h2 : Pres db1 db2) :
    Pres db db2 :=
  ⟨fun tid ht => (h2.1 tid (lt_of_lt_of_le ht h1.2.1)).trans (h1.1 tid ht),
   le_trans h1.2.1 h2.2.1, fun h => h2.2.2 (h1.2.2 h)⟩

/-- A stage that leaves the inbox alone and only grows the counter
preserves everything. -/
theorem Pres.of_inbox_eq_le {db db1 : DB} (hib : db1.inbox = db.inbox)
    (hn : db.nextId ≤ db1.nextId) : Pres db db1 :=
  ⟨fun _ _ => by rw [hib], hn,
   fun h o hm => lt_of_lt_of_le (h o (hib ▸ hm)) hn⟩

/-- `find?`-based flag lookup is unchanged by an id- and flag-preserving
row rewrite. -/
theorem findFlag_map_preserving (l : List InboxObject)
    (g : InboxObject → InboxObject) (tid : Nat)
    (hg : ∀ o, (g o).id = o.id ∧ (g o).isHiddenFromStream = o.isHiddenFromStream) :
    findFlag (l.map g) tid = findFlag l tid := by
  induction l with
  | nil => rfl
  | cons a t ih =>
    simp only [findFlag, List.map_cons, List.find?_cons] at *
    rw [(hg a).1]
    cases hc : (a.id == tid) with
    | false => exact ih
    | true => simp [(hg a).2]

/-- An `UPDATE` that touches neither ids nor the hidden flag preserves
everything. -/
theorem Pres.updateInboxRow (db : DB) (rid : Nat) (f : InboxObject → InboxObject)
    (hf : ∀ o, (f o).id = o.id ∧ (f o).isHiddenFromStream = o.isHiddenFromStream) :
    Pres db (db.updateInboxRow rid f) := by
  have hg : ∀ o, ((if o.id = rid then f o else o).id = o.id
      ∧ (if o.id = rid then f o else o).isHiddenFromStream = o.isHiddenFromStream) := by
    intro o
    by_cases h : o.id = rid
    · simp [h, hf o]
    · simp [h]
  refine ⟨fun tid _ => findFlag_map_preserving _ _ tid hg, le_refl _, ?_⟩
  intro h o hm
  simp only [DB.updateInboxRow, List.mem_map] at hm
  obtain ⟨o0, hm0, ho⟩ := hm
  have := (hg o0).1
  rw [ho] at this
  rw [show o.id = o0.id from this]
  exact h o0 hm0

/-- Appending a row carrying the fresh id preserves everything about the
pre-existing rows. -/
theorem Pres.insert (db : DB) (row : InboxObject) (hrow : row.id = db.nextId) :
    Pres db { db with inbox := db.inbox ++ [row], nextId := db.nextId + 1 } := by
  refine ⟨?_, Nat.le_succ _, ?_⟩
  · intro tid ht
    simp only [findFlag, List.find?_append]
    cases hc : db.inbox.find? (fun o => o.id == tid) with
    | some o => simp [hc]
    | none =>
      have hb : (row.id == tid) = false := by
        rw [hrow]
        exact beq_eq_false_iff_ne.mpr (Nat.ne_of_gt ht)
      simp [List.find?, hb]
  · intro h o hm
    rcases List.mem_append.mp hm with hl | hr
    · exact lt_trans (h o hl) (Nat.lt_succ_self _)
    · rw [List.mem_singleton.mp hr, hrow]
      exact Nat.lt_succ_self _

/-- The freshly inserted row is found with its own flag. -/
theorem findFlag_insert (db : DB) (row : InboxObject)
    (hrow : row.id = db.nextId) (hfresh : inboxFresh db) :
    findFlag (db.inbox ++ [row]) row.id = some row.isHiddenFromStream := by
  simp only [findFlag, List.find?_append]
  have hnone : db.inbox.find? (fun o => o.id == row.id) = none := by
    rw [List.find?_eq_none]
    intro o hm
    have hne : o.id ≠ row.id :=
      Nat.ne_of_lt (lt_of_lt_of_eq (hfresh o hm) hrow.symm)
    simp [hne]
  simp [hnone, List.find?]

/-- Resolving an actor only grows the id counter. -/
theorem fetch_actor_nextId_le (env : Env) (db : DB) (apId : String)
    (a : Actor) (db1 : DB) (h : fetch_actor env db apId = some (a, db1)) :
    db.nextId ≤ db1.nextId := by
  unfold fetch_actor at h
  split at h
  · injection h with h1
    rw [Prod.mk.injEq] at h1
    obtain ⟨-, h2⟩ := h1
    subst h2
    exact le_refl _
  · split at h
    · injection h with h1
      rw [Prod.mk.injEq] at h1
      obtain ⟨-, h2⟩ := h1
      subst h2
      exact Nat.le_succ _
    · exact absurd h (by simp)

/-- Conversation-root resolution never touches the inbox and only grows
the id counter (it can only cache actors). -/
theorem fetch_conversation_root_inbox (env : Env) :
    ∀ (fuel : Nat) (db : DB) (obj : ConvObject) (isRoot : Bool) (s : String)
      (db1 : DB),
      fetch_conversation_root env fuel db obj isRoot = some (.ok (s, db1)) →
      db1.inbox = db.inbox ∧ db.nextId ≤ db1.nextId := by
  intro fuel
  induction fuel with
  | zero =>
    intro db obj isRoot s db1 h
    exact absurd h (by simp [fetch_conversation_root])
  | succ n ih =>
    intro db obj isRoot s db1 h
    rw [fetch_conversation_root] at h
    split at h
    · simp only [Option.some.injEq, Except.ok.injEq, Prod.mk.injEq] at h
      obtain ⟨-, h2⟩ := h
      subst h2
      exact ⟨rfl, le_refl _⟩
    · split at h
      · simp only [Option.some.injEq, Except.ok.injEq, Prod.mk.injEq] at h
        obtain ⟨-, h2⟩ := h
        subst h2
        exact ⟨rfl, le_refl _⟩
      · split at h
        · exact ih _ _ _ _ _ h
        · split at h
          · split at h
            · exact absurd h (by simp)
            · split at h
              · exact ih _ _ _ _ _ h
              · rename_i replyActor db2 heqfa
                split at h
                · exact absurd h (by simp)
                · have hrec := ih _ _ _ _ _ h
                  have hfp := (fetch_actor_preserves _ _ _ _ _ heqfa).1
                  have hfl := fetch_actor_nextId_le _ _ _ _ _ heqfa
                  exact ⟨hrec.1.trans hfp, le_trans hfl hrec.2⟩
          · exact ih _ _ _ _ _ h
          · exact ih _ _ _ _ _ h
          · exact ih _ _ _ _ _ h
          · exact ih _ _ _ _ _ h
          · exact ih _ _ _ _ _ h
          · exact absurd h (by simp)

/-- Enqueueing delivery work items never touches the inbox table. -/
theorem foldl_new_outgoing_inbox (l : List String) (d : DB) (x y : Option Nat) :
    (l.foldl (fun acc rcp => new_outgoing_activity acc rcp x y) d).inbox
      = d.inbox := by
  induction l generalizing d with
  | nil => rfl
  | cons a t ih => simpa [new_outgoing_activity] using ih _

/-- Enqueueing delivery work items never touches the id counter. -/
theorem foldl_new_outgoing_nextId (l : List String) (d : DB) (x y : Option Nat) :
    (l.foldl (fun acc rcp => new_outgoing_activity acc rcp x y) d).nextId
      = d.nextId := by
  induction l generalizing d with
  | nil => rfl
  | cons a t ih => simpa [new_outgoing_activity] using ih _

/-- Handling a poll answer preserves the inbox shape: it only flips the
answer row's transience, records tallies and enqueues deliveries. -/
theorem vote_answer_Pres (env : Env) (db : DB) (answer : InboxObject)
    (question : OutboxObject) (db1 : DB)
    (h : _handle_vote_answer env db answer question = .ok db1) :
    Pres db db1 := by
  unfold _handle_vote_answer at h
  split at h
  · injection h with h1
    subst h1
    exact Pres.refl db
  · split at h
    · exact absurd h (by simp)
    · split at h
      · exact absurd h (by simp)
      · split at h
        · exact absurd h (by simp)
        · split at h
          · injection h with h1
            subst h1
            exact Pres.refl db
          · injection h with h1
            rw [← h1]
            refine Pres.trans
              (Pres.updateInboxRow db answer.id
                (fun o => { o with isTransient := true }) (fun o => ⟨rfl, rfl⟩))
              (Pres.of_inbox_eq_le ?_ ?_)
            · rw [foldl_new_outgoing_inbox]
              rfl
            · rw [foldl_new_outgoing_nextId]
              exact le_refl _


/-- The replied-object update preserves the inbox shape. -/
theorem noteAfterCount_Pres (env : Env) (db3 : DB) (row : InboxObject)
    (r : Option (Sum InboxObject OutboxObject)) (db4 : DB)
    (h : noteAfterCount env db3 row r = .ok db4) : Pres db3 db4 := by
  unfold noteAfterCount at h
  split at h
  · injection h with h1
    subst h1
    exact Pres.refl _
  · split at h
    · exact vote_answer_Pres env db3 row _ db4 h
    · injection h with h1
      subst h1
      exact Pres.of_inbox_eq_le rfl (le_refl _)
  · injection h with h1
    subst h1
    exact Pres.updateInboxRow db3 _ _ (fun o => ⟨rfl, rfl⟩)

/-- The follower-forwarding step preserves the inbox shape. -/
theorem noteForward_Pres (db4 : DB) (pa : InboxObject)
    (r : Option (Sum InboxObject OutboxObject)) (fwd : Option Actor)
    (pid : Nat) : Pres db4 (noteForward db4 pa r fwd pid) := by
  have hfold : ∀ l : List String,
      Pres db4 (l.foldl (fun acc rcp =>
        new_outgoing_activity acc rcp none (some pid)) db4) := by
    intro l
    refine Pres.of_inbox_eq_le ?_ ?_
    · rw [foldl_new_outgoing_inbox]
    · rw [foldl_new_outgoing_nextId]
  unfold noteForward
  split
  · exact hfold _
  · exact Pres.refl _

/-- The replied-object block preserves the inbox shape. -/
theorem noteStep_Pres (env : Env) (db3 : DB) (pa row : InboxObject)
    (fwd : Option Actor) (pid : Nat) (db5 : DB)
    (h : noteStep env db3 pa row fwd pid = .ok db5) : Pres db3 db5 := by
  unfold noteStep at h
  split at h
  · injection h with h1
    subst h1
    exact Pres.refl _
  · split at h
    · exact absurd h (by simp)
    · rename_i db4 heq
      injection h with h1
      subst h1
      exact Pres.trans (noteAfterCount_Pres env db3 row _ db4 heq)
        (noteForward_Pres db4 pa _ fwd pid)

/-- The mention-notification step preserves the inbox shape. -/
theorem noteMentionStep_Pres (db5 : DB) (m : Bool) (a : Actor) (i : Nat) :
    Pres db5 (noteMentionStep db5 m a i) := by
  unfold noteMentionStep
  split
  · exact Pres.of_inbox_eq_le rfl (le_refl _)
  · exact Pres.refl _

/-- The quoted-object block preserves the inbox shape, assuming the
recursive call does. -/
theorem noteQuoteStep_Pres (env : Env)
    (recur : DB → Nat → Actor → RemoteObject → Option Actor → Bool →
      Option (Except PyError (DB × InboxObject)))
    (db6 : DB) (row : InboxObject) (ro : RemoteObject) (pq : Bool)
    (dbF : DB)
    (hrec : ∀ d p a r f q d1 o1, recur d p a r f q = some (.ok (d1, o1)) →
      inboxFresh d → Pres d d1)
    (h : noteQuoteStep env recur db6 row ro pq = some dbF)
    (hfresh : inboxFresh db6) : Pres db6 dbF := by
  unfold noteQuoteStep at h
  split at h
  · split at h
    · split at h
      · injection h with h1
        subst h1
        exact Pres.refl _
      · split at h
        · injection h with h1
          subst h1
          exact Pres.refl _
        · rename_i qa db6a heqfa
          have hPresA : Pres db6 db6a :=
            Pres.of_inbox_eq_le (fetch_actor_preserves env db6 _ qa db6a heqfa).1
              (fetch_actor_nextId_le env db6 _ qa db6a heqfa)
          split at h
          · injection h with h1
            subst h1
            exact hPresA
          · split at h
            · exact absurd h (by simp)
            · injection h with h1
              subst h1
              exact hPresA
            · rename_i db7 qobj heqrec
              injection h with h1
              subst h1
              have hfA : inboxFresh db6a := hPresA.2.2 hfresh
              exact Pres.trans hPresA
                (Pres.trans (hrec _ _ _ _ _ _ _ _ heqrec hfA)
                  (Pres.updateInboxRow db7 _ _ (fun o => ⟨rfl, rfl⟩)))
    · injection h with h1
      subst h1
      exact Pres.refl _
  · injection h with h1
    subst h1
    exact Pres.refl _

set_option maxHeartbeats 2000000 in
/-- Processing a note preserves the hidden flag of every pre-existing
inbox row and stores the flag formula computed from the entry state. -/
theorem pno_Pres_flag (env : Env) :
    ∀ (fuel : Nat) (db : DB) (pid : Nat) (actor : Actor) (ro : RemoteObject)
      (fwd : Option Actor) (pq : Bool) (db1 : DB) (retObj : InboxObject),
      _process_note_object env fuel db pid actor ro fwd pq
        = some (.ok (db1, retObj)) →
      inboxFresh db →
      Pres db db1 ∧ retObj ∈ db1.inbox
        ∧ retObj.isHiddenFromStream = noteIsHidden db ro := by
  intro fuel
  induction fuel with
  | zero =>
    intro db pid actor ro fwd pq db1 retObj h _
    exact absurd h (by simp [_process_note_object])
  | succ n ih =>
    intro db pid actor ro fwd pq db1 retObj h hfresh
    simp only [_process_note_object] at h
    split at h
    · exact absurd h (by simp)
    · split at h
      · exact absurd h (by simp)
      · split at h
        · exact absurd h (by simp)
        · exact absurd h (by simp)
        · rename_i conversation dbA heqfcr
          split at h
          · exact absurd h (by simp)
          · rename_i db5 heqstep
            split at h
            · exact absurd h (by simp)
            · rename_i dbFinal heqquote
              split at h
              · exact absurd h (by simp)
              · rename_i finalObject heqfind
                simp only [Option.some.injEq, Except.ok.injEq,
                  Prod.mk.injEq] at h
                obtain ⟨hdb1, hret⟩ := h
                subst hdb1
                subst hret
                have hfcr := fetch_conversation_root_inbox env (Nat.succ n)
                  db ro.toConvObject false conversation dbA heqfcr
                have hPA : Pres db dbA := Pres.of_inbox_eq_le hfcr.1 hfcr.2
                have hfreshA : inboxFresh dbA := hPA.2.2 hfresh
                have hP2 : Pres dbA { dbA with
                    inbox := dbA.inbox ++
                      [noteRow env db dbA conversation pid actor ro],
                    nextId := dbA.nextId + 1 } :=
                  Pres.insert dbA _ rfl
                have hP3 := Pres.updateInboxRow { dbA with
                    inbox := dbA.inbox ++
                      [noteRow env db dbA conversation pid actor ro],
                    nextId := dbA.nextId + 1 } pid
                  (fun o => { o with relatesToInboxObjectId := some (noteRow env db dbA conversation pid actor ro).id })
                  (fun o => ⟨rfl, rfl⟩)
                have hP5 := noteStep_Pres env _ _ _ fwd pid db5 heqstep
                have hP6 := noteMentionStep_Pres db5
                  (ro.apObject.tags.any (fun tag =>
                    tag.name == some LOCAL_ACTOR_HANDLE
                      || tag.href == some LOCAL_ACTOR_URL))
                  actor (noteRow env db dbA conversation pid actor ro).id
                have hPd6 := Pres.trans hPA (Pres.trans hP2
                  (Pres.trans hP3 (Pres.trans hP5 hP6)))
                have hfresh6 := hPd6.2.2 hfresh
                have hPF := noteQuoteStep_Pres env
                  (_process_note_object env n) _ _ ro pq dbFinal
                  (fun d p a r f q d1 o1 hh hf =>
                    (ih d p a r f q d1 o1 hh hf).1)
                  heqquote hfresh6
                have hPall : Pres db dbFinal := Pres.trans hPd6 hPF
                have hflag2 : findFlag
                    (dbA.inbox ++ [noteRow env db dbA conversation pid actor ro])
                    (noteRow env db dbA conversation pid actor ro).id
                    = some (noteIsHidden db ro) :=
                  findFlag_insert dbA _ rfl hfreshA
                have hP2F := Pres.trans hP3 (Pres.trans hP5
                  (Pres.trans hP6 hPF))
                have hflagF : findFlag dbFinal.inbox
                    (noteRow env db dbA conversation pid actor ro).id
                    = some (noteIsHidden db ro) :=
                  (hP2F.1 _ (Nat.lt_succ_self dbA.nextId)).trans hflag2
                have hsome : some finalObject.isHiddenFromStream
                    = some (noteIsHidden db ro) := by
                  rw [← hflagF]
                  simp [findFlag, heqfind]
                exact ⟨hPall, List.mem_of_find?_eq_some heqfind,
                  Option.some.inj hsome⟩

/-- A followed remote author. -/
def C6frank : Actor :=
  mkActor 7 "https://remote.example/users/frank" "remote.example"
    "https://remote.example/inbox"

/-- The stored `Create` activity row wrapping the note. -/
def C6create : InboxObject :=
  mkInboxObject 5 C6frank "Create" "https://remote.example/create/1"
    emptyRawObject

/-- The note document: not a reply, no mention, non-empty content. -/
def C6noteDoc : RawObject :=
  { emptyRawObject with
      id := some "https://remote.example/notes/1"
      apType := "Note"
      actor := some "https://remote.example/users/frank"
      content := some "hello"
      visibility := .PUBLIC }

/-- The note as a fetched remote object. -/
def C6ro : RemoteObject :=
  { apId := "https://remote.example/notes/1"
    actorApId := "https://remote.example/users/frank"
    actorId := 7
    apObject := C6noteDoc }

/-- Session state: the `Create` row stored and its author followed. -/
def C6db : DB :=
  { emptyDB with
      actors := [C6frank]
      inbox := [C6create]
      following := [{ actorId := 7, outboxObjectId := 1,
                      apActorId := "https://remote.example/users/frank" }] }

/-- The note-processing run on the fixture. -/
def C6run : Option (Except PyError (DB × InboxObject)) :=
  _process_note_object env0 3 C6db 5 C6frank C6ro none false

/-- The session state the run commits. -/
def C6dbAfter : DB :=
  match C6run with | some (.ok (d, _)) => d | _ => emptyDB

/-- The inbox row the run stores and returns. -/
def C6obj : InboxObject :=
  match C6run with | some (.ok (_, o)) => o | _ => C6create

/-- C6: every note object materialized by the Create/Read handler is stored
as an inbox row whose `is_hidden_from_stream` equals NOT((not a reply AND
author in the Following collection) OR mentions the local actor OR reply
to a locally-rooted object with non-empty content), all evaluated against
the session state at entry. -/
theorem C6_note_hidden_from_stream_formula (env : Env) (fuel : Nat) (db : DB)
    (pid : Nat) (actor : Actor) (ro : RemoteObject) (fwd : Option Actor)
    (pq : Bool) (db1 : DB) (retObj : InboxObject)
    (h : _process_note_object env fuel db pid actor ro fwd pq
      = some (.ok (db1, retObj)))
    (hfresh : inboxFresh db) :
    retObj ∈ db1.inbox
      ∧ retObj.isHiddenFromStream
        = !((!ro.apObject.inReplyTo.isSome
              && (db.following.map (fun f => f.apActorId)).contains ro.actorApId)
            || ro.apObject.tags.any (fun tag =>
                tag.name == some LOCAL_ACTOR_HANDLE
                  || tag.href == some LOCAL_ACTOR_URL)
            || ((match ro.apObject.inReplyTo with
                 | some irt => strStartsWith irt BASE_URL
                 | none => false)
                && (match ro.apObject.content with
                    | some c => !(c == "")
                    | none => false))) :=
  (pno_Pres_flag env fuel db pid actor ro fwd pq db1 retObj h hfresh).2

/-- Witness: a followed author's non-reply, mention-free note is processed,
stored, and the formula makes it stream-eligible (flag `false`). -/
theorem C6_note_hidden_from_stream_formula_witness :
    (C6obj ∈ C6dbAfter.inbox
      ∧ C6obj.isHiddenFromStream
        = !((!C6ro.apObject.inReplyTo.isSome
              && (C6db.following.map (fun f => f.apActorId)).contains
                C6ro.actorApId)
            || C6ro.apObject.tags.any (fun tag =>
                tag.name == some LOCAL_ACTOR_HANDLE
                  || tag.href == some LOCAL_ACTOR_URL)
            || ((match C6ro.apObject.inReplyTo with
                 | some irt => strStartsWith irt BASE_URL
                 | none => false)
                && (match C6ro.apObject.content with
                    | some c => !(c == "")
                    | none => false))))
      ∧ C6obj.isHiddenFromStream = false :=
  ⟨C6_note_hidden_from_stream_formula env0 3 C6db 5 C6frank C6ro none false
      C6dbAfter C6obj (by decide) (by unfold inboxFresh; decide),
   by decide⟩
